import Mathlib

/-!
# Mesh.cpp : resource upload, resize handling and the frame loop

A shallow embedding of `src/2_Mesh/Mesh.cpp`.  Every member function of `Mesh`
that the properties below talk about is a computation in the monad `M`: a
function from a `World` (the members of `Mesh`, the two file-scope vectors, the
part of `Application` that `Mesh` reads, and the trace of everything the
function did so far) to a result (a value, or the exception thrown by
`ThrowIfFailed`) and the world at that moment.

Answers of the outside world (HRESULTs of native calls, the index returned by
the swap chain, the fence values handed out by a queue, GPU progress, the mesh
produced by the FBX loader) are read from an `Env`.

Machine integers are natural numbers with explicit reductions: `size_t` is
reduced modulo `2^64`, `UINT` modulo `2^32`.  Fence values (`uint64_t`, handed
out in increasing order by a queue) are natural numbers.  The floats of the
file that matter, the width and height of the viewport, hold whole numbers and
are kept as the natural numbers they hold.
-/

namespace Mesh

/-! ## Native enumerations and descriptions -/

inductive D3D12_HEAP_TYPE
  | DEFAULT
  | UPLOAD
  deriving DecidableEq, Repr

inductive D3D12_RESOURCE_STATES
  | PRESENT
  | RENDER_TARGET
  | COPY_DEST
  | GENERIC_READ
  | DEPTH_WRITE
  deriving DecidableEq, Repr

inductive D3D12_RESOURCE_FLAGS
  | NONE
  | ALLOW_DEPTH_STENCIL
  deriving DecidableEq, Repr

inductive DXGI_FORMAT
  | D32_FLOAT
  | R16_UINT
  | R8G8B8A8_UNORM
  deriving DecidableEq, Repr

inductive D3D12_COMMAND_LIST_TYPE
  | DIRECT
  | COPY
  deriving DecidableEq, Repr

inductive D3D_ROOT_SIGNATURE_VERSION
  | VERSION_1_0
  | VERSION_1_1
  deriving DecidableEq, Repr

/-- The two shapes of `CD3DX12_RESOURCE_DESC` the file builds: `Buffer(width, flags)` and
`Tex2D(format, width, height, arraySize, mipLevels, sampleCount, sampleQuality, flags)`. -/
inductive ResourceDesc
  | Buffer (width : Nat) (flags : D3D12_RESOURCE_FLAGS)
  | Tex2D (format : DXGI_FORMAT) (width height arraySize mipLevels sampleCount sampleQuality : Nat)
      (flags : D3D12_RESOURCE_FLAGS)
  deriving DecidableEq, Repr

/-- A committed resource, as requested from the device.  `serial` is the position of the
creating call in the trace and tells two resources of equal description apart. -/
structure Resource where
  heap : D3D12_HEAP_TYPE
  desc : ResourceDesc
  initialState : D3D12_RESOURCE_STATES
  serial : Nat
  deriving DecidableEq, Repr

/-- Width in bytes of a buffer resource (0 for a texture). -/
def Resource.byteSize (r : Resource) : Nat :=
  match r.desc with
  | .Buffer w _ => w
  | .Tex2D .. => 0

/-- Number of low bits a binary32 cannot keep of an unsigned 32-bit `x`: 0 below `2^24`, and
`k` when `2^(23+k) ≤ x < 2^(24+k)`. -/
def droppedBits (x : Nat) : Nat :=
  ((List.range 9).filter (fun e => decide (2 ^ (24 + e) ≤ x))).length

/-- Value of `(float)x` for an unsigned 32-bit `x`, as the natural number the resulting
binary32 holds (24 significant bits, round to nearest, ties to even).  Exact up to `2^24`. -/
def floatOfUINT32 (x : Nat) : Nat :=
  if x < 2 ^ 24 then x
  else
    let e := droppedBits x
    let q := x / 2 ^ e
    let r := x % 2 ^ e
    let half := 2 ^ (e - 1)
    let q1 := if half < r ∨ (r = half ∧ q % 2 = 1) then q + 1 else q
    q1 * 2 ^ e

/-- The `CD3DX12_VIEWPORT(topLeftX, topLeftY, width, height)` the file builds; the four floats
hold whole numbers and are kept as such. -/
structure D3D12_VIEWPORT where
  TopLeftX : Nat
  TopLeftY : Nat
  Width : Nat
  Height : Nat
  deriving DecidableEq, Repr

structure D3D12_VERTEX_BUFFER_VIEW where
  BufferLocation : Option Resource
  SizeInBytes : Nat
  StrideInBytes : Nat
  deriving DecidableEq, Repr

structure D3D12_INDEX_BUFFER_VIEW where
  BufferLocation : Option Resource
  SizeInBytes : Nat
  Format : Option DXGI_FORMAT
  deriving DecidableEq, Repr

/-- The `D3D12_SUBRESOURCE_DATA` handed to `UpdateSubresources`. -/
structure D3D12_SUBRESOURCE_DATA where
  pData : Nat
  RowPitch : Nat
  SlicePitch : Nat
  deriving DecidableEq, Repr

/-- A `std::vector` as far as the file looks at it: its `size()` and the address of its
first element. -/
structure StdVector where
  size : Nat
  data : Nat
  deriving DecidableEq, Repr

/-- The pointer `&v[0]` as the file passes it on: the address of the first element, null
(`none`) for an empty vector. -/
def StdVector.addressOfFirst (v : StdVector) : Option Nat :=
  if v.size = 0 then none else some v.data

/-! ## Commands, native calls, events -/

/-- What can be recorded on a command list by the file.  A backbuffer and its render target
view are named by the index of the backbuffer; the clear colour `{0.4f, 0.6f, 0.9f, 1.0f}` is
kept in tenths; the matrix behind `SetGraphicsRoot32BitConstants` is left out. -/
inductive Command
  | TransitionResource (backBuffer : Nat) (before after : D3D12_RESOURCE_STATES)
  | ClearRTV (rtv : Nat) (clearColorTenths : List Nat)
  | ClearDepth
  | SetPipelineState
  | SetGraphicsRootSignature
  | IASetPrimitiveTopology
  | IASetVertexBuffers (startSlot numViews : Nat) (view : D3D12_VERTEX_BUFFER_VIEW)
  | IASetIndexBuffer (view : D3D12_INDEX_BUFFER_VIEW)
  | RSSetViewports (num : Nat) (viewport : D3D12_VIEWPORT)
  | RSSetScissorRects (num : Nat)
  | OMSetRenderTargets (num rtv : Nat)
  | SetGraphicsRoot32BitConstants (rootParameterIndex num32BitValues dstOffset : Nat)
  | DrawIndexedInstanced (indexCountPerInstance instanceCount startIndexLocation
      baseVertexLocation startInstanceLocation : Nat)
  | UpdateSubresources (dst intermediate : Resource) (intermediateOffset firstSubresource
      numSubresources : Nat) (src : D3D12_SUBRESOURCE_DATA)
  deriving DecidableEq, Repr

/-- The native calls of the file that return an `HRESULT`. -/
inductive NativeCall
  | CreateCommittedResource (heap : D3D12_HEAP_TYPE) (desc : ResourceDesc)
      (initialState : D3D12_RESOURCE_STATES)
  | CreateDescriptorHeap (numDescriptors : Nat)
  | D3DReadFileToBlob (blobPath : String)
  | CheckFeatureSupport
  | D3DX12SerializeVersionedRootSignature (version : D3D_ROOT_SIGNATURE_VERSION)
  | CreateRootSignature
  | CreatePipelineState
  deriving DecidableEq, Repr

/-- Everything a member function does that is visible from outside, in program order.
`Release` is logged for the buffers and textures (`ID3D12Resource`) a `ComPtr` of `Mesh` or of
the running function gives up. -/
inductive Event
  | Application_Render
  | Application_Resize (width height : Nat)
  | Application_Flush
  | GetCommandList (queue : D3D12_COMMAND_LIST_TYPE)
  | GetCurrentBackbufferIndex (index : Nat)
  | LoadFBX (fbxFilePath : String)
  | Record (c : Command)
  | ExecuteCommandList (queue : D3D12_COMMAND_LIST_TYPE) (commandList : List Command)
      (fenceValue : Nat)
  | WaitForFenceValue (queue : D3D12_COMMAND_LIST_TYPE) (fenceValue : Nat)
  | Present (index : Nat)
  | Native (call : NativeCall) (succeeded : Bool)
  | CreateDepthStencilView (depthBuffer : Resource)
  | Store_m_FenceValues (index fenceValue : Nat)
  | Store_m_CurrentBackbufferIndex (index : Nat)
  | Store_m_ContentLoaded (value : Bool)
  | Store_m_Viewport (viewport : D3D12_VIEWPORT)
  | Store_m_VertexBufferView (view : D3D12_VERTEX_BUFFER_VIEW)
  | Store_m_IndexBufferView (view : D3D12_INDEX_BUFFER_VIEW)
  | Release (r : Resource)
  deriving DecidableEq, Repr

/-! ## State -/

/-- Modelled from the spec: the command queue class is absent from the sources.  A queue hands
out strictly increasing fence values (`m_FenceValue` is the last one handed out) and `completed`
is the fence value the GPU has reached. -/
structure CommandQueue where
  m_FenceValue : Nat
  completed : Nat
  deriving DecidableEq, Repr

/-- The members of `Mesh`, the file-scope vectors `vertices` and `indicies`, and the part of
`Application` the file reads.  `m_FenceValues` is indexed by backbuffer index; the swap chain
only ever produces indices of existing backbuffers.  For `m_DsvHeap`, `m_RootSignature` and
`m_PipelineState` the state records whether the object has been created. -/
structure State where
  m_FenceValues : Nat → Nat
  m_CurrentBackbufferIndex : Nat
  m_ContentLoaded : Bool
  m_Viewport : D3D12_VIEWPORT
  m_VertexBuffer : Option Resource
  m_IndexBuffer : Option Resource
  m_VertexBufferView : D3D12_VERTEX_BUFFER_VIEW
  m_IndexBufferView : D3D12_INDEX_BUFFER_VIEW
  m_DepthBuffer : Option Resource
  m_DsvHeap : Bool
  m_RootSignature : Bool
  m_PipelineState : Bool
  vertices : StdVector
  indicies : StdVector
  clientWidth : Nat
  clientHeight : Nat
  direct : CommandQueue
  copy : CommandQueue

structure World where
  st : State
  trace : List Event

/-- Answers of the outside world during one call of a member function. -/
structure Env where
  /-- Outcome of a native call, given everything that happened before it. -/
  succeeded : List Event → NativeCall → Bool
  /-- Answer of `Application::GetCurrentBackbufferIndex`. -/
  backbufferIndex : Nat
  /-- Answer of `Application::Present`. -/
  presentIndex : Nat
  /-- How far beyond the previous fence value `ExecuteCommandList` jumps, minus one. -/
  fenceGap : Nat
  /-- How far beyond the awaited value the GPU is when a wait returns. -/
  gpuAdvance : Nat
  /-- The mesh `LoadFBX` produces. -/
  fbxVertices : StdVector
  fbxIndicies : StdVector
  /-- Value of `sizeof(VertexPosColor)`; the type is declared in a header outside the sources. -/
  sizeofVertexPosColor : Nat
  /-- The version `CheckFeatureSupport` leaves in `featureData.HighestVersion` when it succeeds. -/
  highestVersion : D3D_ROOT_SIGNATURE_VERSION

/-- The exception thrown by `ThrowIfFailed`. -/
inductive Exception
  | failed
  deriving DecidableEq, Repr

/-- Computations of the member functions. -/
def M (α : Type) : Type := World → Except Exception α × World

def M.pure {α : Type} (a : α) : M α := fun w => (.ok a, w)

def M.bind {α β : Type} (m : M α) (f : α → M β) : M β := fun w =>
  match m w with
  | (.ok a, w1) => f a w1
  | (.error e, w1) => (.error e, w1)

instance : Monad M where
  pure := M.pure
  bind := M.bind

/-- Append an event to the trace. -/
def emit (e : Event) : M Unit := fun w => (.ok (), { w with trace := w.trace ++ [e] })

/-- Read the state. -/
def getState : M State := fun w => (.ok w.st, w)

/-- Read the world. -/
def getWorld : M World := fun w => (.ok w, w)

/-- Change the state (never the trace). -/
def update (f : State → State) : M Unit := fun w => (.ok (), { w with st := f w.st })

def throwException {α : Type} : M α := fun w => (.error .failed, w)

/-- A native call returning an `HRESULT`: the outcome comes from the environment and the call
is logged with its outcome.  Returns `SUCCEEDED(hr)`. -/
def native (env : Env) (c : NativeCall) : M Bool := fun w =>
  let ok := env.succeeded w.trace c
  (.ok ok, { w with trace := w.trace ++ [.Native c ok] })

/-- `ThrowIfFailed(call)`: throws when the `HRESULT` of the call is a failure. -/
def ThrowIfFailed (call : M Bool) : M Unit := do
  if (← call) then pure () else throwException

/-- Record a command on a command list. -/
def record (commandList : List Command) (c : Command) : M (List Command) := do
  emit (.Record c)
  pure (commandList ++ [c])

/-- `ThrowIfFailed(device->CreateCommittedResource(...))`, as at each of its three call sites:
yields the resource written through the last argument. -/
def CreateCommittedResource (env : Env) (heap : D3D12_HEAP_TYPE) (desc : ResourceDesc)
    (initialState : D3D12_RESOURCE_STATES) : M Resource := do
  let serial := (← getWorld).trace.length
  ThrowIfFailed (native env (.CreateCommittedResource heap desc initialState))
  pure { heap := heap, desc := desc, initialState := initialState, serial := serial }

/-! ## The framework around `Mesh` -/

def State.queue (s : State) : D3D12_COMMAND_LIST_TYPE → CommandQueue
  | .DIRECT => s.direct
  | .COPY => s.copy

def State.setQueue (s : State) (t : D3D12_COMMAND_LIST_TYPE) (q : CommandQueue) : State :=
  match t with
  | .DIRECT => { s with direct := q }
  | .COPY => { s with copy := q }

/-- Modelled from the spec: `CommandQueue::GetCommandList` is absent from the sources; it hands
out an empty command list ready for recording. -/
def GetCommandList (queue : D3D12_COMMAND_LIST_TYPE) : M (List Command) := do
  emit (.GetCommandList queue)
  pure []

/-- Modelled from the spec: `CommandQueue::ExecuteCommandList` is absent from the sources; it
submits the list and returns a fence value strictly above every value returned before. -/
def ExecuteCommandList (env : Env) (queue : D3D12_COMMAND_LIST_TYPE)
    (commandList : List Command) : M Nat := do
  let s ← getState
  let fenceValue := (s.queue queue).m_FenceValue + 1 + env.fenceGap
  update (fun s => s.setQueue queue { s.queue queue with m_FenceValue := fenceValue })
  emit (.ExecuteCommandList queue commandList fenceValue)
  pure fenceValue

/-- Modelled from the spec: `CommandQueue::WaitForFenceValue` is absent from the sources; it
returns only once the completed value of the queue has reached `fenceValue`. -/
def WaitForFenceValue (env : Env) (queue : D3D12_COMMAND_LIST_TYPE) (fenceValue : Nat) :
    M Unit := do
  emit (.WaitForFenceValue queue fenceValue)
  update (fun s => s.setQueue queue
    { s.queue queue with completed := max (s.queue queue).completed fenceValue + env.gpuAdvance })

/-- Modelled from the spec: `Application::Flush` is absent from the sources; it waits until
every queue is idle. -/
def Application_Flush : M Unit := do
  emit .Application_Flush
  update (fun s => { s with
    direct := { s.direct with completed := max s.direct.completed s.direct.m_FenceValue }
    copy := { s.copy with completed := max s.copy.completed s.copy.m_FenceValue } })

/-- Modelled from the spec: `Application::Resize` is absent from the sources; it takes over the
new client size (and resizes the swap chain). -/
def Application_Resize (width height : Nat) : M Unit := do
  emit (.Application_Resize width height)
  update (fun s => { s with clientWidth := width, clientHeight := height })

/-- Modelled from the spec: `Application::Render` is absent from the sources. -/
def Application_Render : M Unit := emit .Application_Render

/-- Modelled from the spec: `Application::GetCurrentBackbufferIndex` is absent from the sources;
the swap chain answers. -/
def GetCurrentBackbufferIndex (env : Env) : M Nat := do
  emit (.GetCurrentBackbufferIndex env.backbufferIndex)
  pure env.backbufferIndex

/-- Modelled from the spec: `Application::Present` is absent from the sources; it presents and
returns the index of the next backbuffer. -/
def Present (env : Env) : M Nat := do
  emit (.Present env.presentIndex)
  pure env.presentIndex

/-- Modelled from the spec: `Application::TransitionResource` is absent from the sources; it
records one resource barrier. -/
def TransitionResource (commandList : List Command) (backBuffer : Nat)
    (before after : D3D12_RESOURCE_STATES) : M (List Command) :=
  record commandList (.TransitionResource backBuffer before after)

/-- Modelled from the spec: `Application::ClearRTV` is absent from the sources; it records the
clear of a render target. -/
def ClearRTV (commandList : List Command) (rtv : Nat) (clearColorTenths : List Nat) :
    M (List Command) :=
  record commandList (.ClearRTV rtv clearColorTenths)

/-- Modelled from the spec: `Application::ClearDepth` is absent from the sources; it records the
clear of the depth buffer. -/
def ClearDepth (commandList : List Command) : M (List Command) :=
  record commandList .ClearDepth

/-! ## Member assignments (state change and trace entry) -/

def set_m_CurrentBackbufferIndex (i : Nat) : M Unit := do
  update (fun s => { s with m_CurrentBackbufferIndex := i })
  emit (.Store_m_CurrentBackbufferIndex i)

def set_m_FenceValues (i fenceValue : Nat) : M Unit := do
  update (fun s => { s with m_FenceValues := Function.update s.m_FenceValues i fenceValue })
  emit (.Store_m_FenceValues i fenceValue)

def set_m_ContentLoaded (b : Bool) : M Unit := do
  update (fun s => { s with m_ContentLoaded := b })
  emit (.Store_m_ContentLoaded b)

def set_m_Viewport (v : D3D12_VIEWPORT) : M Unit := do
  update (fun s => { s with m_Viewport := v })
  emit (.Store_m_Viewport v)

def set_m_VertexBufferView (v : D3D12_VERTEX_BUFFER_VIEW) : M Unit := do
  update (fun s => { s with m_VertexBufferView := v })
  emit (.Store_m_VertexBufferView v)

def set_m_IndexBufferView (v : D3D12_INDEX_BUFFER_VIEW) : M Unit := do
  update (fun s => { s with m_IndexBufferView := v })
  emit (.Store_m_IndexBufferView v)

/-- The events of a `ComPtr<ID3D12Resource>` giving up what it holds: one `Release` when it
holds a resource, nothing when it is null. -/
def releaseEvents : Option Resource → List Event
  | some r => [.Release r]
  | none => []

/-- Destructor of a local `ComPtr<ID3D12Resource>`. -/
def releaseComPtr : Option Resource → M Unit
  | some r => emit (.Release r)
  | none => pure ()

/-- The operator `&` of a member `ComPtr<ID3D12Resource>`, as in `&m_VertexBuffer` and
`IID_PPV_ARGS(&m_DepthBuffer)`: the resource the member holds (read with `member`) is released
and the member is null (`clear`) before its address is handed on. -/
def ReleaseAndGetAddressOf (member : State → Option Resource) (clear : State → State) :
    M Unit := do
  releaseComPtr (member (← getState))
  update clear

/-! ## Mesh::UpdateBufferResource (lines 44-84) -/

/-- The out-parameter `pDestinationResource` is the member it points to, given as the function
storing into it; the resource written through `pIntermediateResource` (a local of the caller)
is returned, `none` when `bufferData` is null and the out-parameter is left untouched.  Also
returned: the command list after recording. -/
def UpdateBufferResource (env : Env) (commandList : List Command)
    (pDestinationResource : Resource → State → State)
    (numElements elementSize : Nat) (bufferData : Option Nat) (flags : D3D12_RESOURCE_FLAGS) :
    M (List Command × Option Resource) := do
  let bufferSize := (numElements * elementSize) % 2 ^ 64
  let destination ←
    CreateCommittedResource env .DEFAULT (.Buffer bufferSize flags) .COPY_DEST
  update (pDestinationResource destination)
  match bufferData with
  | some pData =>
    let intermediate ←
      CreateCommittedResource env .UPLOAD (.Buffer bufferSize .NONE) .GENERIC_READ
    let subresourceData : D3D12_SUBRESOURCE_DATA :=
      { pData := pData, RowPitch := bufferSize, SlicePitch := bufferSize }
    let commandList ← record commandList
      (.UpdateSubresources destination intermediate 0 0 1 subresourceData)
    pure (commandList, some intermediate)
  | none => pure (commandList, none)

/-! ## Mesh::ResizeDepthBuffer (lines 240-275) -/

/-- The argument `IID_PPV_ARGS(&m_DepthBuffer)` of the creation (line 263) releases the depth
buffer held so far, after the flush and before the call; after a failed creation
`m_DepthBuffer` is null. -/
def ResizeDepthBuffer (env : Env) (width height : Nat) : M Unit := do
  let s ← getState
  if s.m_ContentLoaded then
    Application_Flush
    let width := max 1 width
    let height := max 1 height
    ReleaseAndGetAddressOf (fun s => s.m_DepthBuffer) (fun s => { s with m_DepthBuffer := none })
    let depthBuffer ← CreateCommittedResource env .DEFAULT
      (.Tex2D .D32_FLOAT width height 1 0 1 0 .ALLOW_DEPTH_STENCIL) .DEPTH_WRITE
    update (fun s => { s with m_DepthBuffer := some depthBuffer })
    emit (.CreateDepthStencilView depthBuffer)

/-! ## Mesh::LoadContent (lines 87-230) -/

/-- Lines 96-108, the block `// Vertex buffer`.  Yields the command list and the local
`intermediateVertexBuffer`.  The argument `&m_VertexBuffer` releases the vertex buffer held so
far; the data pointer passed on is `&vertices[0]`, null for an empty vector. -/
def LoadContent_vertexBuffer (env : Env) (commandList : List Command) :
    M (List Command × Option Resource) := do
  let vertices := (← getState).vertices
  -- Upload vertex buffer data.
  ReleaseAndGetAddressOf (fun s => s.m_VertexBuffer) (fun s => { s with m_VertexBuffer := none })
  let (commandList, intermediateVertexBuffer) ←
    UpdateBufferResource env commandList (fun r s => { s with m_VertexBuffer := some r })
      vertices.size env.sizeofVertexPosColor vertices.addressOfFirst .NONE
  -- Create the vertex buffer view.
  set_m_VertexBufferView
    { BufferLocation := (← getState).m_VertexBuffer
      SizeInBytes := (((vertices.size % 2 ^ 32) * env.sizeofVertexPosColor) % 2 ^ 64) % 2 ^ 32
      StrideInBytes := env.sizeofVertexPosColor % 2 ^ 32 }
  pure (commandList, intermediateVertexBuffer)

/-- Lines 110-122, the block `// Index buffer`.  Yields the command list and the local
`intermediateIndexBuffer`.  The argument `&m_IndexBuffer` releases the index buffer held so
far; the data pointer passed on is `&indicies[0]`, null for an empty vector;
`sizeof(uint16_t)` is 2. -/
def LoadContent_indexBuffer (env : Env) (commandList : List Command) :
    M (List Command × Option Resource) := do
  let indicies := (← getState).indicies
  -- Upload index buffer data.
  ReleaseAndGetAddressOf (fun s => s.m_IndexBuffer) (fun s => { s with m_IndexBuffer := none })
  let (commandList, intermediateIndexBuffer) ←
    UpdateBufferResource env commandList (fun r s => { s with m_IndexBuffer := some r })
      indicies.size 2 indicies.addressOfFirst .NONE
  -- Create index buffer view.
  set_m_IndexBufferView
    { BufferLocation := (← getState).m_IndexBuffer
      Format := some .R16_UINT
      SizeInBytes := (((indicies.size % 2 ^ 32) * 2) % 2 ^ 64) % 2 ^ 32 }
  pure (commandList, intermediateIndexBuffer)

/-- Lines 124-131, the descriptor heap for the depth-stencil view. -/
def LoadContent_dsvHeap (env : Env) : M Unit := do
  ThrowIfFailed (native env (.CreateDescriptorHeap 1))
  update (fun s => { s with m_DsvHeap := true })

/-- Lines 133-216, the block `// PSO`.  The result of `CheckFeatureSupport` is tested with
`FAILED`, every other result goes through `ThrowIfFailed`. -/
def LoadContent_pso (env : Env) (shaderBlobPath : String) : M Unit := do
  -- Load the vertex shader.
  ThrowIfFailed (native env (.D3DReadFileToBlob (shaderBlobPath ++ "VertexShader.cso")))
  -- Load the pixel shader.
  ThrowIfFailed (native env (.D3DReadFileToBlob (shaderBlobPath ++ "PixelShader.cso")))
  -- Create a root signature.
  let highestVersion : D3D_ROOT_SIGNATURE_VERSION :=
    if (← native env .CheckFeatureSupport) then env.highestVersion else .VERSION_1_0
  -- Serialize the root signature.
  ThrowIfFailed (native env (.D3DX12SerializeVersionedRootSignature highestVersion))
  -- Create the root signature.
  ThrowIfFailed (native env .CreateRootSignature)
  update (fun s => { s with m_RootSignature := true })
  ThrowIfFailed (native env .CreatePipelineState)
  update (fun s => { s with m_PipelineState := true })

/-- Lines 218-222, the block `// Execute and Sync queue`. -/
def LoadContent_sync (env : Env) (commandList : List Command) : M Unit := do
  let fenceValue ← ExecuteCommandList env .COPY commandList
  WaitForFenceValue env .COPY fenceValue

/-- The blocks of the function in order; at the return the two local `ComPtr`s of the
intermediate buffers are destroyed (nothing to release for one that is still null).  An
exception ends the run where it is thrown: the trace of such a run stops at the failed
call, what the unwinding destroys is not logged. -/
def LoadContent (env : Env) (shaderBlobPath fbxFilePath : String) : M Bool := do
  let commandList ← GetCommandList .COPY
  -- LoadFBX(fbxFilePath.c_str(), &vertices, &indicies)
  emit (.LoadFBX fbxFilePath)
  update (fun s => { s with vertices := env.fbxVertices, indicies := env.fbxIndicies })
  let (commandList, intermediateVertexBuffer) ← LoadContent_vertexBuffer env commandList
  let (commandList, intermediateIndexBuffer) ← LoadContent_indexBuffer env commandList
  LoadContent_dsvHeap env
  LoadContent_pso env shaderBlobPath
  LoadContent_sync env commandList
  set_m_ContentLoaded true
  -- Resize/Create the depth buffer.
  ResizeDepthBuffer env (← getState).clientWidth (← getState).clientHeight
  -- return: the local ComPtrs go out of scope, the last declared first
  releaseComPtr intermediateIndexBuffer
  releaseComPtr intermediateVertexBuffer
  pure true

/-! ## Mesh::UnloadContent (lines 232-235) -/

def UnloadContent : M Unit := set_m_ContentLoaded false

/-! ## Mesh::Resize (lines 277-289) -/

def Resize (env : Env) (width height : Nat) : M Unit := do
  let s ← getState
  if s.clientWidth ≠ width ∨ s.clientHeight ≠ height then
    Application_Resize width height
    set_m_CurrentBackbufferIndex (← GetCurrentBackbufferIndex env)
    set_m_Viewport
      { TopLeftX := 0, TopLeftY := 0, Width := floatOfUINT32 width, Height := floatOfUINT32 height }
    ResizeDepthBuffer env width height

/-! ## Mesh::Render (lines 315-375) -/

/-- Lines 317-327: everything `Render` does before the first command is recorded.  Yields the
command list and the index of the backbuffer the frame is rendered into. -/
def Render_begin (env : Env) : M (List Command × Nat) := do
  Application_Render
  let commandList ← GetCommandList .DIRECT
  set_m_CurrentBackbufferIndex (← GetCurrentBackbufferIndex env)
  let backBuffer := (← getState).m_CurrentBackbufferIndex
  pure (commandList, backBuffer)

/-- Lines 329-367: the commands of one frame, recorded on `commandList`.  `rtv` is the answer
of `Application::GetCurrentBackbufferRTV` (line 326), the view of the backbuffer the swap chain
is at; `dsv` is the one descriptor of `m_DsvHeap`. -/
def Render_record (env : Env) (commandList : List Command) (backBuffer : Nat) :
    M (List Command) := do
  let rtv := env.backbufferIndex
  let s ← getState
  -- Clear RT
  let commandList ← TransitionResource commandList backBuffer .PRESENT .RENDER_TARGET
  let commandList ← ClearRTV commandList rtv [4, 6, 9, 10]
  let commandList ← ClearDepth commandList
  -- Set graphics state
  let commandList ← record commandList .SetPipelineState
  let commandList ← record commandList .SetGraphicsRootSignature
  let commandList ← record commandList .IASetPrimitiveTopology
  let commandList ← record commandList (.IASetVertexBuffers 0 1 s.m_VertexBufferView)
  let commandList ← record commandList (.IASetIndexBuffer s.m_IndexBufferView)
  let commandList ← record commandList (.RSSetViewports 1 s.m_Viewport)
  let commandList ← record commandList (.RSSetScissorRects 1)
  let commandList ← record commandList (.OMSetRenderTargets 1 rtv)
  -- sizeof(XMMATRIX) / 4 = 16
  let commandList ← record commandList (.SetGraphicsRoot32BitConstants 0 16 0)
  let commandList ← record commandList
    (.DrawIndexedInstanced (s.indicies.size % 2 ^ 32) 1 0 0 0)
  -- PRESENT image
  TransitionResource commandList backBuffer .RENDER_TARGET .PRESENT

def Render (env : Env) : M Unit := do
  let (commandList, backBuffer) ← Render_begin env
  let commandList ← Render_record env commandList backBuffer
  -- Execute
  let fenceValue ← ExecuteCommandList env .DIRECT commandList
  set_m_FenceValues (← getState).m_CurrentBackbufferIndex fenceValue
  set_m_CurrentBackbufferIndex (← Present env)
  let s ← getState
  WaitForFenceValue env .DIRECT (s.m_FenceValues s.m_CurrentBackbufferIndex)

/-! ## Observing a call -/

/-- The events a call of `m` from world `w` appends to the trace. -/
def eventsOf {α : Type} (m : M α) (w : World) : List Event :=
  (m w).2.trace.drop w.trace.length

/-- Whether the call ended by the exception of `ThrowIfFailed`. -/
def threw {α : Type} (m : M α) (w : World) : Bool :=
  match (m w).1 with
  | .ok _ => false
  | .error _ => true

def Event.isWait : Event → Bool
  | .WaitForFenceValue _ _ => true
  | _ => false

def Event.isRecord : Event → Bool
  | .Record _ => true
  | _ => false

def Event.isSubmit : Event → Bool
  | .ExecuteCommandList _ _ _ => true
  | _ => false

def Event.isStoreFence : Event → Bool
  | .Store_m_FenceValues _ _ => true
  | _ => false

def Event.isPresent : Event → Bool
  | .Present _ => true
  | _ => false

def Event.isStoreIndex : Event → Bool
  | .Store_m_CurrentBackbufferIndex _ => true
  | _ => false

def Event.isFlush : Event → Bool
  | .Application_Flush => true
  | _ => false

def Event.isStoreViewport : Event → Bool
  | .Store_m_Viewport _ => true
  | _ => false

/-- A request to create a 2D texture (the only one in the file is the depth buffer). -/
def Event.isDepthBufferCreation : Event → Bool
  | .Native (.CreateCommittedResource _ (.Tex2D ..) _) _ => true
  | _ => false

/-- A native call that failed. -/
def Event.isFailure : Event → Bool
  | .Native _ ok => !ok
  | _ => false

/-- A native call that failed and whose result goes through `ThrowIfFailed`: every call of the
file except `CheckFeatureSupport`, whose result is tested with `FAILED` instead. -/
def Event.isThrowingFailure : Event → Bool
  | .Native .CheckFeatureSupport _ => false
  | .Native _ ok => !ok
  | _ => false

/-- Position of the first event satisfying `p` (the length of the list when there is none). -/
def firstAt (p : Event → Bool) (evs : List Event) : Nat := evs.findIdx p

/-- Position of the last event satisfying `p` (the length of the list when there is none). -/
def lastAt (p : Event → Bool) (evs : List Event) : Nat :=
  if evs.any p then evs.length - 1 - evs.reverse.findIdx p else evs.length

/-- The command lists submitted with `ExecuteCommandList`, in order. -/
def submitted : List Event → List (List Command)
  | [] => []
  | .ExecuteCommandList _ cl _ :: rest => cl :: submitted rest
  | _ :: rest => submitted rest

/-- The index counts of the indexed draws of a command list, in order. -/
def drawIndexCounts : List Command → List Nat
  | [] => []
  | .DrawIndexedInstanced n _ _ _ _ :: rest => n :: drawIndexCounts rest
  | _ :: rest => drawIndexCounts rest

/-- The phase order of one frame as the specification words it: wait, record, submit, store
the fence value, present, advance the backbuffer index. -/
def specPhaseOrder (evs : List Event) : Bool :=
  decide (firstAt Event.isWait evs < firstAt Event.isRecord evs) &&
  decide (lastAt Event.isRecord evs < firstAt Event.isSubmit evs) &&
  decide (firstAt Event.isSubmit evs < firstAt Event.isStoreFence evs) &&
  decide (firstAt Event.isStoreFence evs < firstAt Event.isPresent evs) &&
  decide (firstAt Event.isPresent evs < lastAt Event.isStoreIndex evs)

/-- The part of the specified phase order the specification singles out: some wait happens
before the first command of the frame is recorded. -/
def waitPrecedesRecording (evs : List Event) : Bool :=
  decide (firstAt Event.isWait evs < firstAt Event.isRecord evs)

/-- The resize order as the specification words it: a flush happens, the viewport is stored
after it, a depth buffer is created after it, and none is created before it. -/
def specResizeOrder (evs : List Event) : Bool :=
  evs.any Event.isFlush &&
  decide (firstAt Event.isFlush evs < lastAt Event.isStoreViewport evs) &&
  evs.any Event.isStoreViewport &&
  evs.any Event.isDepthBufferCreation &&
  decide (firstAt Event.isFlush evs < firstAt Event.isDepthBufferCreation evs)

/-! ## The frame loop as a transition system -/

/-- Modelled from the spec: the declaration and initialisation of `m_FenceValues` are in a
header outside the sources.  Before the first frame every swap-chain image is free: no fence
value recorded for it is still outstanding on the direct queue. -/
def Idle (s : State) : Prop := ∀ j, s.m_FenceValues j ≤ s.direct.completed

/-- Whether a command list renders into backbuffer `i`: it transitions it to the state
RENDER_TARGET. -/
def rendersInto (i : Nat) (cl : List Command) : Bool :=
  cl.any (fun c =>
    match c with
    | .TransitionResource b _ .RENDER_TARGET => b == i
    | _ => false)

/-- The fence values `ExecuteCommandList` returned on the direct queue for the command lists
that render into backbuffer `i`, in the order of the trace. -/
def fencesSubmittedFor (i : Nat) : List Event → List Nat
  | [] => []
  | .ExecuteCommandList .DIRECT cl f :: rest =>
      if rendersInto i cl then f :: fencesSubmittedFor i rest else fencesSubmittedFor i rest
  | _ :: rest => fencesSubmittedFor i rest

/-- The last fence value submitted for backbuffer `i`, if a frame was submitted for it. -/
def lastSubmittedFor (i : Nat) (evs : List Event) : Option Nat :=
  (fencesSubmittedFor i evs).getLast?

/-- Nothing has been submitted on the direct queue. -/
def noDirectSubmission (evs : List Event) : Bool :=
  evs.all (fun e =>
    match e with
    | .ExecuteCommandList .DIRECT _ _ => false
    | _ => true)

/-- The GPU works on between two calls: the completed value of the direct queue grows. -/
def gpuProgress (k : Nat) (w : World) : World :=
  { w with st := { w.st with direct := { w.st.direct with completed := w.st.direct.completed + k } } }

/-- What the swap chain may answer to `GetCurrentBackbufferIndex` at the start of a call of
`Render`: the index `Present` returned in the previous call (anything in the first call). -/
def IndexFollowsPresent (prev : Option Nat) (env : Env) : Prop :=
  ∀ p, prev = some p → env.backbufferIndex = p

/-- The worlds between frames, each with the index `Present` returned in the last call of
`Render` (`none` before the first call).  The first frame starts from a world in which
nothing has been submitted on the direct queue and every image is free.  Steps are calls of
`Render` under `IndexFollowsPresent`, interleaved with GPU progress. -/
inductive Frames : World → Option Nat → Prop
  | init (w : World) : Idle w.st → noDirectSubmission w.trace = true → Frames w none
  | gpu (w : World) (prev : Option Nat) (k : Nat) : Frames w prev → Frames (gpuProgress k w) prev
  | render (w : World) (prev : Option Nat) (env : Env) :
      Frames w prev → IndexFollowsPresent prev env →
      Frames (Render env w).2 (some env.presentIndex)

/-! ## Sample inputs -/

def sampleState : State :=
  { m_FenceValues := fun _ => 0
    m_CurrentBackbufferIndex := 0
    m_ContentLoaded := false
    m_Viewport := { TopLeftX := 0, TopLeftY := 0, Width := 2400, Height := 1200 }
    m_VertexBuffer := none
    m_IndexBuffer := none
    m_VertexBufferView := { BufferLocation := none, SizeInBytes := 0, StrideInBytes := 0 }
    m_IndexBufferView := { BufferLocation := none, SizeInBytes := 0, Format := none }
    m_DepthBuffer := none
    m_DsvHeap := false
    m_RootSignature := false
    m_PipelineState := false
    vertices := { size := 0, data := 0 }
    indicies := { size := 0, data := 0 }
    clientWidth := 2400
    clientHeight := 1200
    direct := { m_FenceValue := 0, completed := 0 }
    copy := { m_FenceValue := 0, completed := 0 } }

/-- A freshly constructed `Mesh` of 2400 x 1200 (the size in `wWinMain`), nothing loaded. -/
def sampleWorld : World := { st := sampleState, trace := [] }

/-- A mesh of `2^32` indices is loaded. -/
def hugeWorld : World :=
  { st := { sampleState with m_ContentLoaded := true, indicies := { size := 2 ^ 32, data := 8192 } }
    trace := [] }

/-- Every native call succeeds; the swap chain is at image 0 and moves on to image 1. -/
def sampleEnv : Env :=
  { succeeded := fun _ _ => true
    backbufferIndex := 0
    presentIndex := 1
    fenceGap := 0
    gpuAdvance := 0
    fbxVertices := { size := 24, data := 4096 }
    fbxIndicies := { size := 36, data := 8192 }
    sizeofVertexPosColor := 44
    highestVersion := .VERSION_1_1 }

/-- The same after `LoadContent` has run with every native call succeeding: content is loaded,
the two buffers and the 2400 x 1200 depth buffer exist. -/
def loadedWorld : World := (LoadContent sampleEnv "" "" sampleWorld).2

/-- The frame after `sampleEnv` on a swap chain of two images: the swap chain is at image 1
and moves on to image 0. -/
def nextEnv : Env := { sampleEnv with backbufferIndex := 1, presentIndex := 0 }

/-- The world after two frames on a swap chain of two images, started with content loaded:
the first frame rendered into image 0, the second into image 1, and `Present` returned 0. -/
def twoFramesWorld : World := (Render nextEnv (Render sampleEnv loadedWorld).2).2

/-- Only `CheckFeatureSupport` fails. -/
def noFeatureEnv : Env :=
  { sampleEnv with succeeded := fun _ c => decide (c ≠ NativeCall.CheckFeatureSupport) }

/-! ## What one frame looks like -/

/-- The fence value `ExecuteCommandList` returns on the direct queue in state `s`. -/
def frameFence (env : Env) (s : State) : Nat := s.direct.m_FenceValue + 1 + env.fenceGap

/-- The commands of one frame, in the order `Render` records them. -/
def frameCommands (env : Env) (s : State) : List Command :=
  [ .TransitionResource env.backbufferIndex .PRESENT .RENDER_TARGET,
    .ClearRTV env.backbufferIndex [4, 6, 9, 10],
    .ClearDepth,
    .SetPipelineState,
    .SetGraphicsRootSignature,
    .IASetPrimitiveTopology,
    .IASetVertexBuffers 0 1 s.m_VertexBufferView,
    .IASetIndexBuffer s.m_IndexBufferView,
    .RSSetViewports 1 s.m_Viewport,
    .RSSetScissorRects 1,
    .OMSetRenderTargets 1 env.backbufferIndex,
    .SetGraphicsRoot32BitConstants 0 16 0,
    .DrawIndexedInstanced (s.indicies.size % 2 ^ 32) 1 0 0 0,
    .TransitionResource env.backbufferIndex .RENDER_TARGET .PRESENT ]

/-- `m_FenceValues` after the frame. -/
def frameFenceValues (env : Env) (s : State) : Nat → Nat :=
  Function.update s.m_FenceValues env.backbufferIndex (frameFence env s)

/-- The state `Render` leaves behind. -/
def frameState (env : Env) (s : State) : State :=
  { s with
    m_CurrentBackbufferIndex := env.presentIndex
    m_FenceValues := frameFenceValues env s
    direct :=
      { m_FenceValue := frameFence env s
        completed :=
          max s.direct.completed (frameFenceValues env s env.presentIndex) + env.gpuAdvance } }

/-- The index the first `GetCurrentBackbufferIndex` of a call returned. -/
def renderedInto : List Event → Option Nat
  | [] => none
  | .GetCurrentBackbufferIndex i :: _ => some i
  | _ :: rest => renderedInto rest

/-- The fence value the first `ExecuteCommandList` of a call returned. -/
def returnedFence : List Event → Option Nat
  | [] => none
  | .ExecuteCommandList _ _ f :: _ => some f
  | _ :: rest => returnedFence rest

/-- The index the first `Present` of a call returned. -/
def presentReturned : List Event → Option Nat
  | [] => none
  | .Present i :: _ => some i
  | _ :: rest => presentReturned rest

/-! ## What one resize looks like -/

/-- The description of the depth buffer `ResizeDepthBuffer(width, height)` asks for. -/
def depthBufferDesc (width height : Nat) : ResourceDesc :=
  .Tex2D .D32_FLOAT (max 1 width) (max 1 height) 1 0 1 0 .ALLOW_DEPTH_STENCIL

/-- Width of the texture in `m_DepthBuffer`. -/
def State.depthBufferWidth (s : State) : Option Nat :=
  match s.m_DepthBuffer with
  | some { desc := .Tex2D _ w _ _ _ _ _ _, .. } => some w
  | _ => none

/-- Height of the texture in `m_DepthBuffer`. -/
def State.depthBufferHeight (s : State) : Option Nat :=
  match s.m_DepthBuffer with
  | some { desc := .Tex2D _ _ h _ _ _ _ _, .. } => some h
  | _ => none

/-- The viewport `Resize(width, height)` stores. -/
def resizeViewport (width height : Nat) : D3D12_VIEWPORT :=
  { TopLeftX := 0, TopLeftY := 0, Width := floatOfUINT32 width, Height := floatOfUINT32 height }

/-- What `Resize` does before it enters `ResizeDepthBuffer`. -/
def resizePrefix (env : Env) (width height : Nat) : List Event :=
  [.Application_Resize width height, .GetCurrentBackbufferIndex env.backbufferIndex,
    .Store_m_CurrentBackbufferIndex env.backbufferIndex,
    .Store_m_Viewport (resizeViewport width height)]

/-- The world in which `Resize` enters `ResizeDepthBuffer`. -/
def resizeEntry (env : Env) (width height : Nat) (w : World) : World :=
  { st := { w.st with
      clientWidth := width
      clientHeight := height
      m_CurrentBackbufferIndex := env.backbufferIndex
      m_Viewport := resizeViewport width height }
    trace := w.trace ++ resizePrefix env width height }

/-- Outcome of the creation of the depth buffer in a call `Resize(width, height)`. -/
def depthCreationSucceeds (env : Env) (width height : Nat) (w : World) : Bool :=
  env.succeeded
    (w.trace ++ (resizePrefix env width height ++
      .Application_Flush :: releaseEvents w.st.m_DepthBuffer))
    (.CreateCommittedResource .DEFAULT (depthBufferDesc width height) .DEPTH_WRITE)

/-- The depth buffer a call `Resize(width, height)` creates. -/
def resizedDepthBuffer (width height : Nat) (w : World) : Resource :=
  { heap := .DEFAULT, desc := depthBufferDesc width height, initialState := .DEPTH_WRITE,
    serial := w.trace.length + 5 + (releaseEvents w.st.m_DepthBuffer).length }

/-- The state in which `ResizeDepthBuffer` asks for the new depth buffer: every queue is idle
and the old depth buffer is gone. -/
def flushedState (s : State) : State :=
  { s with
    direct := { s.direct with completed := max s.direct.completed s.direct.m_FenceValue }
    copy := { s.copy with completed := max s.copy.completed s.copy.m_FenceValue }
    m_DepthBuffer := none }

/-! ## What one upload looks like -/

/-- The `bufferSize` of `UpdateBufferResource`: the product in `size_t`. -/
def uploadSize (numElements elementSize : Nat) : Nat := (numElements * elementSize) % 2 ^ 64

/-- The destination resource an upload started in world `w` creates. -/
def uploadDestination (numElements elementSize : Nat) (flags : D3D12_RESOURCE_FLAGS)
    (w : World) : Resource :=
  { heap := .DEFAULT, desc := .Buffer (uploadSize numElements elementSize) flags,
    initialState := .COPY_DEST, serial := w.trace.length }

/-- The intermediate resource an upload started in world `w` creates. -/
def uploadIntermediate (numElements elementSize : Nat) (w : World) : Resource :=
  { heap := .UPLOAD, desc := .Buffer (uploadSize numElements elementSize) .NONE,
    initialState := .GENERIC_READ, serial := w.trace.length + 1 }

/-- The copy an upload started in world `w` records. -/
def uploadCopy (numElements elementSize pData : Nat) (flags : D3D12_RESOURCE_FLAGS)
    (w : World) : Command :=
  .UpdateSubresources (uploadDestination numElements elementSize flags w)
    (uploadIntermediate numElements elementSize w) 0 0 1
    { pData := pData, RowPitch := uploadSize numElements elementSize,
      SlicePitch := uploadSize numElements elementSize }

/-- A buffer was created in heap `heap`. -/
def Event.createsBufferIn (heap : D3D12_HEAP_TYPE) : Event → Bool
  | .Native (.CreateCommittedResource h (.Buffer ..) _) true => h == heap
  | _ => false

/-- Outcome of the creation of the destination resource of an upload. -/
def destinationSucceeds (env : Env) (numElements elementSize : Nat)
    (flags : D3D12_RESOURCE_FLAGS) (w : World) : Bool :=
  env.succeeded w.trace
    (.CreateCommittedResource .DEFAULT (.Buffer (uploadSize numElements elementSize) flags)
      .COPY_DEST)

/-- Outcome of the creation of the intermediate resource of an upload, the destination
resource having been created. -/
def intermediateSucceeds (env : Env) (numElements elementSize : Nat)
    (flags : D3D12_RESOURCE_FLAGS) (w : World) : Bool :=
  env.succeeded
    (w.trace ++ [.Native (.CreateCommittedResource .DEFAULT
      (.Buffer (uploadSize numElements elementSize) flags) .COPY_DEST) true])
    (.CreateCommittedResource .UPLOAD (.Buffer (uploadSize numElements elementSize) .NONE)
      .GENERIC_READ)

/-! ## Fail-fast behaviour of a call -/

/-- Fail-fast as the specification words it: the call throws exactly when one of its native
calls fails, and a failed native call is the last event of the call. -/
def specFailFast {α : Type} (m : M α) (w : World) : Bool :=
  (threw m w == (eventsOf m w).any Event.isFailure) &&
  !((eventsOf m w).dropLast.any Event.isFailure)

/-- Fail-fast for the calls under `ThrowIfFailed`: the call throws exactly when one of them
fails, and such a failed call is the last event of the call. -/
def failFast {α : Type} (m : M α) (w : World) : Bool :=
  (threw m w == (eventsOf m w).any Event.isThrowingFailure) &&
  !((eventsOf m w).dropLast.any Event.isThrowingFailure)

/-- Result and events of a fail-fast call: without exception no call under `ThrowIfFailed`
failed; with an exception the last event is such a failed call and the only one. -/
def FailFastOutcome {α : Type} (r : Except Exception α) (evs : List Event) : Prop :=
  match r with
  | .ok _ => evs.any Event.isThrowingFailure = false
  | .error _ => ∃ pre e, evs = pre ++ [e] ∧ pre.any Event.isThrowingFailure = false ∧
      e.isThrowingFailure = true

/-- A computation that only appends to the trace and is fail-fast from every world. -/
structure FailFastM {α : Type} (m : M α) : Prop where
  run : ∀ w, ∃ evs, (m w).2.trace = w.trace ++ evs ∧ FailFastOutcome (m w).1 evs

/-- The value a call returns (`none` when it throws). -/
def valueOf {α : Type} (m : M α) (w : World) : Option α :=
  match (m w).1 with
  | .ok a => some a
  | .error _ => none

/-! ## What one load looks like -/

/-- The loader has run: the file-scope vectors hold the mesh `LoadFBX` produced. -/
def Loaded (env : Env) (s : State) : Prop :=
  s.vertices = env.fbxVertices ∧ s.indicies = env.fbxIndicies

/-- The buffer views `LoadContent` may store for the mesh of `env`: sizes and stride as
computed in `UINT`, each view located at a default-heap buffer of the size uploaded. -/
def goodView (env : Env) : Event → Prop
  | .Store_m_VertexBufferView v =>
      v.SizeInBytes = (env.fbxVertices.size * env.sizeofVertexPosColor) % 2 ^ 32 ∧
      v.StrideInBytes = env.sizeofVertexPosColor % 2 ^ 32 ∧
      ∃ r, v.BufferLocation = some r ∧ r.heap = .DEFAULT ∧
        r.byteSize = (env.fbxVertices.size * env.sizeofVertexPosColor) % 2 ^ 64
  | .Store_m_IndexBufferView v =>
      v.SizeInBytes = (2 * env.fbxIndicies.size) % 2 ^ 32 ∧
      v.Format = some .R16_UINT ∧
      ∃ r, v.BufferLocation = some r ∧ r.heap = .DEFAULT ∧
        r.byteSize = (2 * env.fbxIndicies.size) % 2 ^ 64
  | _ => True

/-- A computation that only appends to the trace, keeps the state invariant `I`, and emits
only events satisfying `P`, from every world satisfying `I`. -/
structure Keeps {α : Type} (I : State → Prop) (P : Event → Prop) (m : M α) : Prop where
  run : ∀ w, I w.st →
    ∃ evs, (m w).2.trace = w.trace ++ evs ∧ I (m w).2.st ∧ ∀ e ∈ evs, P e

/-- The world in which the block `// Vertex buffer` calls `UpdateBufferResource`: the vertex
buffer held so far has been released. -/
def vertexEntry (w : World) : World :=
  { st := { w.st with m_VertexBuffer := none }
    trace := w.trace ++ releaseEvents w.st.m_VertexBuffer }

/-- The world in which the block `// Index buffer` calls `UpdateBufferResource`: the index
buffer held so far has been released. -/
def indexEntry (w : World) : World :=
  { st := { w.st with m_IndexBuffer := none }
    trace := w.trace ++ releaseEvents w.st.m_IndexBuffer }

/-- The end of the block `// Vertex buffer`: the view of the vertex buffer is stored. -/
def storeVertexView (env : Env) (vertices : StdVector) (r : List Command × Option Resource) :
    M (List Command × Option Resource) := do
  set_m_VertexBufferView
    { BufferLocation := (← getState).m_VertexBuffer
      SizeInBytes := (((vertices.size % 2 ^ 32) * env.sizeofVertexPosColor) % 2 ^ 64) % 2 ^ 32
      StrideInBytes := env.sizeofVertexPosColor % 2 ^ 32 }
  pure r

/-- The end of the block `// Index buffer`: the view of the index buffer is stored. -/
def storeIndexView (indicies : StdVector) (r : List Command × Option Resource) :
    M (List Command × Option Resource) := do
  set_m_IndexBufferView
    { BufferLocation := (← getState).m_IndexBuffer
      Format := some .R16_UINT
      SizeInBytes := (((indicies.size % 2 ^ 32) * 2) % 2 ^ 64) % 2 ^ 32 }
  pure r

/-- What `LoadContent` does after `LoadFBX` has returned (lines 96-230), on the command
list `cl`. -/
def LoadContent_afterLoadFBX (env : Env) (shaderBlobPath : String) (cl : List Command) :
    M Bool := do
  let (commandList, intermediateVertexBuffer) ← LoadContent_vertexBuffer env cl
  let (commandList, intermediateIndexBuffer) ← LoadContent_indexBuffer env commandList
  LoadContent_dsvHeap env
  LoadContent_pso env shaderBlobPath
  LoadContent_sync env commandList
  set_m_ContentLoaded true
  ResizeDepthBuffer env (← getState).clientWidth (← getState).clientHeight
  releaseComPtr intermediateIndexBuffer
  releaseComPtr intermediateVertexBuffer
  pure true

/-- The world in which `LoadFBX` has returned. -/
def afterLoadFBX (env : Env) (fbxFilePath : String) (w : World) : World :=
  { st := { w.st with vertices := env.fbxVertices, indicies := env.fbxIndicies }
    trace := w.trace ++ [.GetCommandList .COPY, .LoadFBX fbxFilePath] }

/-- The events of the descriptor heap and of the block `// PSO`, when no native call fails. -/
def loadEventsPipeline (env : Env) (shaderBlobPath : String) : List Event :=
  [ .Native (.CreateDescriptorHeap 1) true,
    .Native (.D3DReadFileToBlob (shaderBlobPath ++ "VertexShader.cso")) true,
    .Native (.D3DReadFileToBlob (shaderBlobPath ++ "PixelShader.cso")) true,
    .Native .CheckFeatureSupport true,
    .Native (.D3DX12SerializeVersionedRootSignature env.highestVersion) true,
    .Native .CreateRootSignature true,
    .Native .CreatePipelineState true ]

/-- The world the descriptor heap and the block `// PSO` leave when no native call fails. -/
def afterPipeline (env : Env) (shaderBlobPath : String) (w : World) : World :=
  { st := { w.st with m_DsvHeap := true, m_RootSignature := true, m_PipelineState := true }
    trace := w.trace ++ loadEventsPipeline env shaderBlobPath }

/-- The fence value `ExecuteCommandList` returns on the copy queue in state `s`. -/
def loadFence (env : Env) (s : State) : Nat := s.copy.m_FenceValue + 1 + env.fenceGap

/-- The world the block `// Execute and Sync queue` and the store of `m_ContentLoaded`
leave, `cl` being the command list submitted. -/
def afterSync (env : Env) (cl : List Command) (w : World) : World :=
  { st := { w.st with
      copy :=
        { m_FenceValue := loadFence env w.st
          completed := max w.st.copy.completed (loadFence env w.st) + env.gpuAdvance }
      m_ContentLoaded := true }
    trace := w.trace ++
      [ .ExecuteCommandList .COPY cl (loadFence env w.st),
        .WaitForFenceValue .COPY (loadFence env w.st),
        .Store_m_ContentLoaded true ] }

/-- No native call fails, whatever happened before it. -/
def NoCallFails (env : Env) : Prop := ∀ tr c, env.succeeded tr c = true

def Event.isRelease : Event → Bool
  | .Release _ => true
  | _ => false

/-! # Theorems -/

/-! ## Running computations -/

@[simp] theorem bind_apply {α β : Type} (m : M α) (f : α → M β) (w : World) :
    (m >>= f) w = match m w with
      | (.ok a, w1) => f a w1
      | (.error e, w1) => (.error e, w1) := rfl

@[simp] theorem pure_apply {α : Type} (a : α) (w : World) : (pure a : M α) w = (.ok a, w) := rfl

@[simp] theorem emit_apply (e : Event) (w : World) :
    emit e w = (.ok (), { w with trace := w.trace ++ [e] }) := rfl

@[simp] theorem getState_apply (w : World) : getState w = (.ok w.st, w) := rfl

@[simp] theorem update_apply (f : State → State) (w : World) :
    update f w = (.ok (), { w with st := f w.st }) := rfl

@[simp] theorem throwException_apply {α : Type} (w : World) :
    (throwException : M α) w = (.error .failed, w) := rfl

@[simp] theorem native_apply (env : Env) (c : NativeCall) (w : World) :
    native env c w =
      (.ok (env.succeeded w.trace c),
        { w with trace := w.trace ++ [.Native c (env.succeeded w.trace c)] }) := rfl

@[simp] theorem getWorld_apply (w : World) : getWorld w = (.ok w, w) := rfl

theorem ThrowIfFailed_native_ok (env : Env) (c : NativeCall) (w : World)
    (h : env.succeeded w.trace c = true) :
    ThrowIfFailed (native env c) w =
      (.ok (), { w with trace := w.trace ++ [.Native c true] }) := by
  simp [ThrowIfFailed, h]

theorem ThrowIfFailed_native_error (env : Env) (c : NativeCall) (w : World)
    (h : env.succeeded w.trace c = false) :
    ThrowIfFailed (native env c) w =
      (.error .failed, { w with trace := w.trace ++ [.Native c false] }) := by
  simp [ThrowIfFailed, h]

@[simp] theorem record_apply (cl : List Command) (c : Command) (w : World) :
    record cl c w = (.ok (cl ++ [c]), { w with trace := w.trace ++ [.Record c] }) := rfl

/-- A committed resource is created: when the call succeeds. -/
theorem CreateCommittedResource_ok (env : Env) (heap : D3D12_HEAP_TYPE) (desc : ResourceDesc)
    (state : D3D12_RESOURCE_STATES) (w : World)
    (h : env.succeeded w.trace (.CreateCommittedResource heap desc state) = true) :
    CreateCommittedResource env heap desc state w =
      (.ok { heap := heap, desc := desc, initialState := state, serial := w.trace.length },
        { w with trace := w.trace ++ [.Native (.CreateCommittedResource heap desc state) true] }) := by
  simp [CreateCommittedResource, ThrowIfFailed, h]

/-- A committed resource is not created: the call fails and `ThrowIfFailed` throws. -/
theorem CreateCommittedResource_error (env : Env) (heap : D3D12_HEAP_TYPE) (desc : ResourceDesc)
    (state : D3D12_RESOURCE_STATES) (w : World)
    (h : env.succeeded w.trace (.CreateCommittedResource heap desc state) = false) :
    CreateCommittedResource env heap desc state w =
      (.error .failed,
        { w with trace := w.trace ++ [.Native (.CreateCommittedResource heap desc state) false] }) := by
  simp [CreateCommittedResource, ThrowIfFailed, h]

@[simp] theorem Application_Flush_apply (w : World) :
    Application_Flush w =
      (.ok (),
        { st := { w.st with
            direct := { w.st.direct with
              completed := max w.st.direct.completed w.st.direct.m_FenceValue }
            copy := { w.st.copy with
              completed := max w.st.copy.completed w.st.copy.m_FenceValue } }
          trace := w.trace ++ [.Application_Flush] }) := rfl

/-- The modelled queue hands out strictly increasing fence values. -/
theorem ExecuteCommandList_increasing (env : Env) (q : D3D12_COMMAND_LIST_TYPE)
    (cl : List Command) (w : World) :
    ∃ f, (ExecuteCommandList env q cl w).1 = .ok f ∧
      (w.st.queue q).m_FenceValue < f ∧
      ((ExecuteCommandList env q cl w).2.st.queue q).m_FenceValue = f := by
  refine ⟨(w.st.queue q).m_FenceValue + 1 + env.fenceGap, ?_, by omega, ?_⟩
  · simp [ExecuteCommandList]
  · cases q <;> simp [ExecuteCommandList, State.queue, State.setQueue]

/-- The modelled wait returns only with the awaited fence value reached, and the completed
value of a queue never decreases. -/
theorem WaitForFenceValue_reached (env : Env) (q : D3D12_COMMAND_LIST_TYPE) (v : Nat)
    (w : World) :
    v ≤ ((WaitForFenceValue env q v w).2.st.queue q).completed ∧
    (w.st.queue q).completed ≤ ((WaitForFenceValue env q v w).2.st.queue q).completed := by
  cases q <;> simp [WaitForFenceValue, State.queue, State.setQueue] <;> omega

theorem Render_begin_eq (env : Env) (w : World) :
    Render_begin env w =
      (.ok ([], env.backbufferIndex),
        { st := { w.st with m_CurrentBackbufferIndex := env.backbufferIndex }
          trace := w.trace ++ [.Application_Render, .GetCommandList .DIRECT,
            .GetCurrentBackbufferIndex env.backbufferIndex,
            .Store_m_CurrentBackbufferIndex env.backbufferIndex] }) := by
  simp [Render_begin, Application_Render, GetCommandList, GetCurrentBackbufferIndex,
    set_m_CurrentBackbufferIndex]

theorem Render_record_eq (env : Env) (cl : List Command) (w : World) :
    Render_record env cl env.backbufferIndex w =
      (.ok (cl ++ frameCommands env w.st),
        { w with trace := w.trace ++ (frameCommands env w.st).map .Record }) := by
  simp [Render_record, frameCommands, TransitionResource, ClearRTV, ClearDepth]

theorem Render_eq (env : Env) (w : World) :
    Render env w =
      (.ok (),
        { st := frameState env w.st
          trace := w.trace ++
            ([.Application_Render, .GetCommandList .DIRECT,
              .GetCurrentBackbufferIndex env.backbufferIndex,
              .Store_m_CurrentBackbufferIndex env.backbufferIndex] ++
             (frameCommands env w.st).map .Record ++
             [.ExecuteCommandList .DIRECT (frameCommands env w.st) (frameFence env w.st),
              .Store_m_FenceValues env.backbufferIndex (frameFence env w.st),
              .Present env.presentIndex,
              .Store_m_CurrentBackbufferIndex env.presentIndex,
              .WaitForFenceValue .DIRECT (frameFenceValues env w.st env.presentIndex)]) }) := by
  simp only [Render, bind_apply, Render_begin_eq, Render_record_eq]
  simp [ExecuteCommandList, WaitForFenceValue, set_m_FenceValues, set_m_CurrentBackbufferIndex,
    Present, State.queue, State.setQueue, frameState, frameFence, frameFenceValues, frameCommands]

theorem eventsOf_eq {α : Type} (m : M α) (w : World) (r : Except Exception α) (s : State)
    (evs : List Event) (h : m w = (r, { st := s, trace := w.trace ++ evs })) :
    eventsOf m w = evs := by
  simp [eventsOf, h]

theorem Render_events (env : Env) (w : World) :
    eventsOf (Render env) w =
      [.Application_Render, .GetCommandList .DIRECT,
        .GetCurrentBackbufferIndex env.backbufferIndex,
        .Store_m_CurrentBackbufferIndex env.backbufferIndex] ++
      (frameCommands env w.st).map .Record ++
      [.ExecuteCommandList .DIRECT (frameCommands env w.st) (frameFence env w.st),
        .Store_m_FenceValues env.backbufferIndex (frameFence env w.st),
        .Present env.presentIndex,
        .Store_m_CurrentBackbufferIndex env.presentIndex,
        .WaitForFenceValue .DIRECT (frameFenceValues env w.st env.presentIndex)] :=
  eventsOf_eq _ _ _ _ _ (Render_eq env w)

theorem Render_state (env : Env) (w : World) : (Render env w).2.st = frameState env w.st := by
  rw [Render_eq]

theorem Render_result (env : Env) (w : World) : (Render env w).1 = .ok () := by
  rw [Render_eq]

theorem fencesSubmittedFor_append (i : Nat) (a b : List Event) :
    fencesSubmittedFor i (a ++ b) = fencesSubmittedFor i a ++ fencesSubmittedFor i b := by
  induction a with
  | nil => rfl
  | cons e t ih =>
    cases e with
    | ExecuteCommandList q cl f =>
      cases q
      · show fencesSubmittedFor i (.ExecuteCommandList .DIRECT cl f :: (t ++ b)) = _
        simp only [fencesSubmittedFor, ih]
        split <;> simp
      · exact ih
    | _ => exact ih

theorem fencesSubmittedFor_of_noDirectSubmission (i : Nat) (evs : List Event)
    (h : noDirectSubmission evs = true) : fencesSubmittedFor i evs = [] := by
  induction evs with
  | nil => rfl
  | cons e t ih =>
    simp only [noDirectSubmission, List.all_cons, Bool.and_eq_true] at h
    have ht : fencesSubmittedFor i t = [] := ih h.2
    cases e with
    | ExecuteCommandList q cl f =>
      cases q
      · exact absurd h.1 (by simp)
      · simp only [fencesSubmittedFor, ht]
    | _ => simp only [fencesSubmittedFor, ht]

theorem rendersInto_frameCommands (env : Env) (s : State) (i : Nat) :
    rendersInto i (frameCommands env s) = (env.backbufferIndex == i) := by
  simp [rendersInto, frameCommands]

/-- The one submission of a frame is for the backbuffer the swap chain is at. -/
theorem fencesSubmittedFor_Render (env : Env) (w : World) (i : Nat) :
    fencesSubmittedFor i (eventsOf (Render env) w) =
      if env.backbufferIndex = i then [frameFence env w.st] else [] := by
  have h := rendersInto_frameCommands env w.st i
  rw [Render_events]
  simp only [fencesSubmittedFor_append]
  have hrec : ∀ cl : List Command, fencesSubmittedFor i (cl.map .Record) = [] := by
    intro cl
    induction cl with
    | nil => rfl
    | cons c t ih => simp only [List.map_cons, fencesSubmittedFor, ih]
  rw [hrec]
  simp [fencesSubmittedFor, h]

theorem Render_trace (env : Env) (w : World) :
    (Render env w).2.trace = w.trace ++ eventsOf (Render env) w := by
  rw [Render_events, Render_eq]

/-- Between frames: an image no frame was submitted for is free; the image `Present` returned
last has been waited for; the fence values submitted for an image are at most the fence value
of the queue and at most the entry of `m_FenceValues` for that image, which is the last of
them. -/
theorem Frames_inv (w : World) (prev : Option Nat) (h : Frames w prev) :
    (∀ i, fencesSubmittedFor i w.trace = [] → w.st.m_FenceValues i ≤ w.st.direct.completed) ∧
    (∀ p, prev = some p → w.st.m_FenceValues p ≤ w.st.direct.completed) ∧
    (∀ i f, f ∈ fencesSubmittedFor i w.trace → f ≤ w.st.direct.m_FenceValue) ∧
    (∀ i f, f ∈ fencesSubmittedFor i w.trace → f ≤ w.st.m_FenceValues i) ∧
    (∀ i f, lastSubmittedFor i w.trace = some f → w.st.m_FenceValues i = f) ∧
    (prev = none → ∀ i, fencesSubmittedFor i w.trace = []) := by
  induction h with
  | init w hidle hno =>
    have hnone := fun i => fencesSubmittedFor_of_noDirectSubmission i w.trace hno
    refine ⟨fun i _ => hidle i, fun p hp => Option.noConfusion hp, ?_, ?_, ?_, fun _ => hnone⟩
    · intro i f hf
      rw [hnone i] at hf
      cases hf
    · intro i f hf
      rw [hnone i] at hf
      cases hf
    · intro i f hf
      rw [lastSubmittedFor, hnone i] at hf
      cases hf
  | gpu w prev k _ ih =>
    obtain ⟨h1, h2, h3, h4, h5, h6⟩ := ih
    refine ⟨fun i hi => ?_, fun p hp => ?_, h3, h4, h5, h6⟩
    · have := h1 i hi
      simp only [gpuProgress]
      omega
    · have := h2 p hp
      simp only [gpuProgress]
      omega
  | render w prev env _ _ ih =>
    obtain ⟨h1, h2, h3, h4, h5, h6⟩ := ih
    have hfs : ∀ i, fencesSubmittedFor i (Render env w).2.trace =
        fencesSubmittedFor i w.trace ++
          if env.backbufferIndex = i then [frameFence env w.st] else [] := by
      intro i
      rw [Render_trace, fencesSubmittedFor_append, fencesSubmittedFor_Render]
    have hfv : ∀ i, (Render env w).2.st.m_FenceValues i =
        if i = env.backbufferIndex then frameFence env w.st else w.st.m_FenceValues i := by
      intro i
      rw [Render_state]
      simp only [frameState, frameFenceValues, Function.update_apply]
    have hq : (Render env w).2.st.direct.m_FenceValue = frameFence env w.st := by
      rw [Render_state]
      rfl
    have hc : w.st.direct.completed ≤ (Render env w).2.st.direct.completed ∧
        (Render env w).2.st.m_FenceValues env.presentIndex ≤
          (Render env w).2.st.direct.completed := by
      rw [Render_state]
      simp only [frameState]
      omega
    have hlt : w.st.direct.m_FenceValue < frameFence env w.st := by
      simp only [frameFence]
      omega
    refine ⟨?_, ?_, ?_, ?_, ?_, fun hn => Option.noConfusion hn⟩
    · intro i hi
      rw [hfs i] at hi
      by_cases hb : env.backbufferIndex = i
      · simp [hb] at hi
      · simp only [hb, if_false, List.append_nil] at hi
        rw [hfv i, if_neg (fun h => hb h.symm)]
        exact Nat.le_trans (h1 i hi) hc.1
    · intro p hp
      cases hp
      exact hc.2
    · intro i f hf
      rw [hq]
      rw [hfs i, List.mem_append] at hf
      rcases hf with hf | hf
      · exact Nat.le_of_lt (Nat.lt_of_le_of_lt (h3 i f hf) hlt)
      · by_cases hb : env.backbufferIndex = i
        · simp only [hb, if_true, List.mem_singleton] at hf
          exact Nat.le_of_eq hf
        · simp [hb] at hf
    · intro i f hf
      rw [hfs i, List.mem_append] at hf
      rw [hfv i]
      by_cases hb : env.backbufferIndex = i
      · rw [if_pos hb.symm]
        rcases hf with hf | hf
        · exact Nat.le_of_lt (Nat.lt_of_le_of_lt (h3 i f hf) hlt)
        · simp only [hb, if_true, List.mem_singleton] at hf
          exact Nat.le_of_eq hf
      · rw [if_neg (fun h => hb h.symm)]
        rcases hf with hf | hf
        · exact h4 i f hf
        · simp [hb] at hf
    · intro i f hf
      rw [lastSubmittedFor, hfs i] at hf
      rw [hfv i]
      by_cases hb : env.backbufferIndex = i
      · rw [if_pos hb.symm]
        simp [hb] at hf
        exact hf
      · rw [if_neg (fun h => hb h.symm)]
        simp only [hb, if_false, List.append_nil] at hf
        exact h5 i f hf

/-- C1: in every world reachable from a world in which nothing has been submitted on the
direct queue and every image is free, by successive calls of `Render` (each starting with the
index `Present` returned in the call before) and GPU progress: at the moment `Render` starts
recording for backbuffer `i`, the index the swap chain answered, `m_FenceValues[i]` is the
last fence value submitted for backbuffer `i` (when a frame was submitted for it), the
completed value of the direct queue is at least `m_FenceValues[i]`, and hence at least every
fence value ever submitted for backbuffer `i`. -/
theorem C1_fence_reached_before_reuse (w : World) (prev : Option Nat) (env : Env)
    (hreach : Frames w prev) (hidx : IndexFollowsPresent prev env) :
    (Render_begin env w).2.st.m_CurrentBackbufferIndex = env.backbufferIndex ∧
    (∀ f, lastSubmittedFor env.backbufferIndex (Render_begin env w).2.trace = some f →
      (Render_begin env w).2.st.m_FenceValues env.backbufferIndex = f) ∧
    (Render_begin env w).2.st.m_FenceValues env.backbufferIndex ≤
      (Render_begin env w).2.st.direct.completed ∧
    (∀ f, f ∈ fencesSubmittedFor env.backbufferIndex (Render_begin env w).2.trace →
      f ≤ (Render_begin env w).2.st.direct.completed) := by
  obtain ⟨h1, h2, _, h4, h5, h6⟩ := Frames_inv w prev hreach
  have htr : ∀ i, fencesSubmittedFor i (Render_begin env w).2.trace =
      fencesSubmittedFor i w.trace := by
    intro i
    rw [Render_begin_eq]
    simp [fencesSubmittedFor_append, fencesSubmittedFor]
  have hle : w.st.m_FenceValues env.backbufferIndex ≤ w.st.direct.completed := by
    cases prev with
    | none => exact h1 _ (h6 rfl _)
    | some p =>
      have hp : env.backbufferIndex = p := hidx p rfl
      rw [hp]
      exact h2 p rfl
  refine ⟨by rw [Render_begin_eq], ?_, ?_, ?_⟩
  · intro f hf
    rw [lastSubmittedFor, htr] at hf
    rw [Render_begin_eq]
    exact h5 _ f hf
  · rw [Render_begin_eq]
    exact hle
  · intro f hf
    rw [htr] at hf
    rw [Render_begin_eq]
    exact Nat.le_trans (h4 _ f hf) hle

/-- C1 at the third frame on a swap chain of two images, content loaded: the first frame was
submitted for image 0 with fence value 1, the second for image 1 with fence value 2; when the
third call starts recording for image 0, `m_FenceValues[0]` is 1, the last fence value
submitted for image 0, and the queue has completed 1, while fence value 2 is outstanding. -/
theorem C1_fence_reached_before_reuse_witness :
    lastSubmittedFor 0 (Render_begin sampleEnv twoFramesWorld).2.trace = some 1 ∧
    (Render_begin sampleEnv twoFramesWorld).2.st.m_FenceValues 0 = 1 ∧
    1 ≤ (Render_begin sampleEnv twoFramesWorld).2.st.direct.completed ∧
    (Render_begin sampleEnv twoFramesWorld).2.st.direct.completed = 1 ∧
    (Render_begin sampleEnv twoFramesWorld).2.st.direct.m_FenceValue = 2 :=
  have h := C1_fence_reached_before_reuse twoFramesWorld (some 0) sampleEnv
    (Frames.render (Render sampleEnv loadedWorld).2 (some 1) nextEnv
      (Frames.render loadedWorld none sampleEnv
        (Frames.init loadedWorld (fun _ => Nat.zero_le _) (by decide))
        (fun _ hp => Option.noConfusion hp))
      (fun _ hp => Option.some.inj hp))
    (fun _ hp => Option.some.inj hp)
  have hlast : lastSubmittedFor 0 (Render_begin sampleEnv twoFramesWorld).2.trace = some 1 := by
    decide
  ⟨hlast, h.2.1 1 hlast, (h.2.1 1 hlast) ▸ h.2.2.1, by decide, by decide⟩

/-- C7: every call of `Render` returns; the backbuffer it rendered into is the index `i` the
swap chain answered to `GetCurrentBackbufferIndex`; its one submission is on the direct queue
and `ExecuteCommandList` returned for it the fence value `f`, which is above the fence value
the queue was at and is the fence value the queue is at afterwards; `Present` returned the
index of the swap chain for the next frame.  After the call `m_FenceValues[i] = f`, every other
entry of `m_FenceValues` is unchanged, and `m_CurrentBackbufferIndex` is the index `Present`
returned. -/
theorem C7_fence_bookkeeping (env : Env) (w : World) :
    (Render env w).1 = .ok () ∧
    renderedInto (eventsOf (Render env) w) = some env.backbufferIndex ∧
    returnedFence (eventsOf (Render env) w) =
      some (w.st.direct.m_FenceValue + 1 + env.fenceGap) ∧
    (eventsOf (Render env) w).filter Event.isSubmit =
      [.ExecuteCommandList .DIRECT (frameCommands env w.st)
        (w.st.direct.m_FenceValue + 1 + env.fenceGap)] ∧
    presentReturned (eventsOf (Render env) w) = some env.presentIndex ∧
    w.st.direct.m_FenceValue < w.st.direct.m_FenceValue + 1 + env.fenceGap ∧
    (Render env w).2.st.direct.m_FenceValue = w.st.direct.m_FenceValue + 1 + env.fenceGap ∧
    (Render env w).2.st.m_FenceValues env.backbufferIndex =
      w.st.direct.m_FenceValue + 1 + env.fenceGap ∧
    (∀ j, j ≠ env.backbufferIndex →
      (Render env w).2.st.m_FenceValues j = w.st.m_FenceValues j) ∧
    (Render env w).2.st.m_CurrentBackbufferIndex = env.presentIndex := by
  refine ⟨Render_result env w, ?_, ?_, ?_, ?_, by omega, ?_, ?_, ?_, ?_⟩
  · simp [Render_events, renderedInto]
  · simp [Render_events, returnedFence, frameCommands, frameFence]
  · simp [Render_events, frameCommands, frameFence, Event.isSubmit, List.filter]
  · simp [Render_events, presentReturned, frameCommands]
  · simp [Render_state, frameState, frameFence]
  · simp [Render_state, frameState, frameFenceValues, frameFence]
  · intro j hj
    simp [Render_state, frameState, frameFenceValues, Function.update, hj]
  · simp [Render_state, frameState]

/-- C7 at the first frame after the load, on a swap chain at image 0 that moves on to image 1:
the frame is submitted with fence value 1, which is stored for image 0; the entry of image 1
stays 0 and the current index becomes 1. -/
theorem C7_fence_bookkeeping_witness :
    renderedInto (eventsOf (Render sampleEnv) loadedWorld) = some 0 ∧
    returnedFence (eventsOf (Render sampleEnv) loadedWorld) = some 1 ∧
    presentReturned (eventsOf (Render sampleEnv) loadedWorld) = some 1 ∧
    (Render sampleEnv loadedWorld).2.st.m_FenceValues 0 = 1 ∧
    (Render sampleEnv loadedWorld).2.st.m_FenceValues 1 = 0 ∧
    (Render sampleEnv loadedWorld).2.st.m_CurrentBackbufferIndex = 1 :=
  have h := C7_fence_bookkeeping sampleEnv loadedWorld
  ⟨h.2.1, h.2.2.1, h.2.2.2.2.1, h.2.2.2.2.2.2.2.1, h.2.2.2.2.2.2.2.2.1 1 (by decide),
    h.2.2.2.2.2.2.2.2.2⟩

/-- C2, as worded, fails: in a call of `Render` no wait happens before the first command is
recorded; the only wait of the call (position 22) comes after every recorded command
(positions 4 to 17), after the submission and after `Present`. -/
theorem C2_phase_order_counterexample :
    waitPrecedesRecording (eventsOf (Render sampleEnv) sampleWorld) = false ∧
    specPhaseOrder (eventsOf (Render sampleEnv) sampleWorld) = false ∧
    firstAt Event.isWait (eventsOf (Render sampleEnv) sampleWorld) = 22 ∧
    firstAt Event.isRecord (eventsOf (Render sampleEnv) sampleWorld) = 4 ∧
    lastAt Event.isRecord (eventsOf (Render sampleEnv) sampleWorld) = 17 := by
  rw [Render_events]
  decide

/-- C2, amended: every call of `Render` goes through its phases in this order: the frame's
commands are recorded for the backbuffer `i` whose index `GetCurrentBackbufferIndex` returned,
the command list is submitted, the returned fence value is stored in `m_FenceValues[i]`,
`Present` is called, `m_CurrentBackbufferIndex` is set to the index `next` it returned, and
last of all the call waits for `m_FenceValues[next]`. -/
theorem C2_phase_order_amended (env : Env) (w : World) :
    ∃ cmds f,
      cmds ≠ [] ∧
      eventsOf (Render env) w =
        [.Application_Render, .GetCommandList .DIRECT,
          .GetCurrentBackbufferIndex env.backbufferIndex,
          .Store_m_CurrentBackbufferIndex env.backbufferIndex] ++
        cmds.map .Record ++
        [.ExecuteCommandList .DIRECT cmds f,
          .Store_m_FenceValues env.backbufferIndex f,
          .Present env.presentIndex,
          .Store_m_CurrentBackbufferIndex env.presentIndex,
          .WaitForFenceValue .DIRECT ((Render env w).2.st.m_FenceValues env.presentIndex)] := by
  refine ⟨frameCommands env w.st, frameFence env w.st, ?_, ?_⟩
  · simp [frameCommands]
  · rw [Render_events, Render_state]
    rfl

/-- C8, as worded, fails: with `2^32` indices loaded the one indexed draw of the submitted
command list has index count 0, not the number of loaded indices. -/
theorem C8_command_order_counterexample :
    hugeWorld.st.indicies.size = 4294967296 ∧
    (submitted (eventsOf (Render sampleEnv) hugeWorld)).map drawIndexCounts = [[0]] ∧
    (submitted (eventsOf (Render sampleEnv) hugeWorld)).map drawIndexCounts ≠
      [[hugeWorld.st.indicies.size]] := by
  rw [Render_events]
  decide

/-- C8, amended: the command list a call of `Render` submits is, in order: the transition of
the current backbuffer from PRESENT to RENDER_TARGET, the clear of the render target, the clear
of the depth buffer, nine state-setting commands, one indexed draw whose index count is the
number of loaded indices reduced modulo `2^32` (the number itself when it is below `2^32`),
and the transition of the same backbuffer from RENDER_TARGET to PRESENT; these are exactly the
commands recorded during the call. -/
theorem C8_command_order_amended (env : Env) (w : World) :
    renderedInto (eventsOf (Render env) w) = some env.backbufferIndex ∧
    submitted (eventsOf (Render env) w) =
      [[ .TransitionResource env.backbufferIndex .PRESENT .RENDER_TARGET,
         .ClearRTV env.backbufferIndex [4, 6, 9, 10],
         .ClearDepth,
         .SetPipelineState,
         .SetGraphicsRootSignature,
         .IASetPrimitiveTopology,
         .IASetVertexBuffers 0 1 w.st.m_VertexBufferView,
         .IASetIndexBuffer w.st.m_IndexBufferView,
         .RSSetViewports 1 w.st.m_Viewport,
         .RSSetScissorRects 1,
         .OMSetRenderTargets 1 env.backbufferIndex,
         .SetGraphicsRoot32BitConstants 0 16 0,
         .DrawIndexedInstanced (w.st.indicies.size % 2 ^ 32) 1 0 0 0,
         .TransitionResource env.backbufferIndex .RENDER_TARGET .PRESENT ]] ∧
    (∀ cl, cl ∈ submitted (eventsOf (Render env) w) →
      (eventsOf (Render env) w).filter Event.isRecord = cl.map .Record) ∧
    (w.st.indicies.size < 2 ^ 32 →
      (submitted (eventsOf (Render env) w)).map drawIndexCounts = [[w.st.indicies.size]]) := by
  refine ⟨?_, ?_, ?_, ?_⟩
  · simp [Render_events, renderedInto]
  · simp [Render_events, submitted, frameCommands]
  · intro cl hcl
    have hs : submitted (eventsOf (Render env) w) = [frameCommands env w.st] := by
      simp [Render_events, submitted, frameCommands]
    rw [hs] at hcl
    simp only [List.mem_singleton] at hcl
    subst hcl
    simp [Render_events, frameCommands, Event.isRecord, List.filter]
  · intro hlt
    have hmod : w.st.indicies.size % 2 ^ 32 = w.st.indicies.size := Nat.mod_eq_of_lt hlt
    simp only [Render_events, frameCommands, hmod]
    simp [submitted, drawIndexCounts]

/-- C8 amended, on a mesh of 36 indices: the draw has index count 36. -/
theorem C8_command_order_amended_witness :
    (submitted (eventsOf (Render sampleEnv)
        { st := { sampleState with indicies := { size := 36, data := 8192 } }, trace := [] })).map
      drawIndexCounts = [[36]] :=
  (C8_command_order_amended sampleEnv
    { st := { sampleState with indicies := { size := 36, data := 8192 } }, trace := [] }).2.2.2
    (by decide)

theorem floatOfUINT32_exact (x : Nat) (h : x ≤ 2 ^ 24) : floatOfUINT32 x = x := by
  rcases Nat.lt_or_ge x (2 ^ 24) with hlt | hge
  · unfold floatOfUINT32
    rw [if_pos hlt]
  · have hx : x = 2 ^ 24 := Nat.le_antisymm h hge
    subst hx
    decide

@[simp] theorem ReleaseAndGetAddressOf_apply (member : State → Option Resource)
    (clear : State → State) (w : World) :
    ReleaseAndGetAddressOf member clear w =
      (.ok (), { st := clear w.st, trace := w.trace ++ releaseEvents (member w.st) }) := by
  cases h : member w.st <;> simp [ReleaseAndGetAddressOf, releaseComPtr, releaseEvents, h]

/-- `ResizeDepthBuffer` without content loaded does nothing. -/
theorem ResizeDepthBuffer_unloaded (env : Env) (width height : Nat) (w : World)
    (hload : w.st.m_ContentLoaded = false) :
    ResizeDepthBuffer env width height w = (.ok (), w) := by
  simp [ResizeDepthBuffer, hload]

/-- `ResizeDepthBuffer` with content loaded, the creation succeeding. -/
theorem ResizeDepthBuffer_ok (env : Env) (width height : Nat) (w : World)
    (hload : w.st.m_ContentLoaded = true)
    (hok : env.succeeded (w.trace ++ .Application_Flush :: releaseEvents w.st.m_DepthBuffer)
      (.CreateCommittedResource .DEFAULT (depthBufferDesc width height) .DEPTH_WRITE) = true) :
    ResizeDepthBuffer env width height w =
      (.ok (),
        { st := { flushedState w.st with
            m_DepthBuffer := some
              { heap := .DEFAULT, desc := depthBufferDesc width height,
                initialState := .DEPTH_WRITE,
                serial := w.trace.length + 1 + (releaseEvents w.st.m_DepthBuffer).length } }
          trace := w.trace ++
            (.Application_Flush :: releaseEvents w.st.m_DepthBuffer ++
              [.Native (.CreateCommittedResource .DEFAULT (depthBufferDesc width height)
                  .DEPTH_WRITE) true,
                .CreateDepthStencilView
                  { heap := .DEFAULT, desc := depthBufferDesc width height,
                    initialState := .DEPTH_WRITE,
                    serial := w.trace.length + 1 +
                      (releaseEvents w.st.m_DepthBuffer).length }]) }) := by
  simp only [depthBufferDesc] at hok
  simp [ResizeDepthBuffer, hload, CreateCommittedResource, ThrowIfFailed, hok, depthBufferDesc,
    flushedState]
  omega

/-- `ResizeDepthBuffer` with content loaded, the creation failing. -/
theorem ResizeDepthBuffer_error (env : Env) (width height : Nat) (w : World)
    (hload : w.st.m_ContentLoaded = true)
    (hok : env.succeeded (w.trace ++ .Application_Flush :: releaseEvents w.st.m_DepthBuffer)
      (.CreateCommittedResource .DEFAULT (depthBufferDesc width height) .DEPTH_WRITE) = false) :
    ResizeDepthBuffer env width height w =
      (.error .failed,
        { st := flushedState w.st
          trace := w.trace ++
            (.Application_Flush :: releaseEvents w.st.m_DepthBuffer ++
              [.Native (.CreateCommittedResource .DEFAULT (depthBufferDesc width height)
                  .DEPTH_WRITE) false]) }) := by
  simp only [depthBufferDesc] at hok
  simp [ResizeDepthBuffer, hload, CreateCommittedResource, ThrowIfFailed, hok, depthBufferDesc,
    flushedState]

theorem Resize_eq (env : Env) (width height : Nat) (w : World)
    (hsize : w.st.clientWidth ≠ width ∨ w.st.clientHeight ≠ height) :
    Resize env width height w =
      ResizeDepthBuffer env width height (resizeEntry env width height w) := by
  simp [Resize, hsize, Application_Resize, GetCurrentBackbufferIndex,
    set_m_CurrentBackbufferIndex, set_m_Viewport, resizeEntry, resizePrefix, resizeViewport]

theorem Resize_same_size (env : Env) (width height : Nat) (w : World)
    (hw : w.st.clientWidth = width) (hh : w.st.clientHeight = height) :
    Resize env width height w = (.ok (), w) := by
  simp [Resize, hw, hh]

theorem Resize_unloaded (env : Env) (width height : Nat) (w : World)
    (hsize : w.st.clientWidth ≠ width ∨ w.st.clientHeight ≠ height)
    (hload : w.st.m_ContentLoaded = false) :
    Resize env width height w = (.ok (), resizeEntry env width height w) := by
  rw [Resize_eq env width height w hsize]
  exact ResizeDepthBuffer_unloaded env width height (resizeEntry env width height w) hload

theorem Resize_loaded_ok (env : Env) (width height : Nat) (w : World)
    (hsize : w.st.clientWidth ≠ width ∨ w.st.clientHeight ≠ height)
    (hload : w.st.m_ContentLoaded = true)
    (hok : depthCreationSucceeds env width height w = true) :
    Resize env width height w =
      (.ok (),
        { st := { flushedState (resizeEntry env width height w).st with
            m_DepthBuffer := some (resizedDepthBuffer width height w) }
          trace := w.trace ++
            (resizePrefix env width height ++
              (.Application_Flush :: releaseEvents w.st.m_DepthBuffer ++
                [.Native (.CreateCommittedResource .DEFAULT (depthBufferDesc width height)
                    .DEPTH_WRITE) true,
                  .CreateDepthStencilView (resizedDepthBuffer width height w)])) }) := by
  rw [Resize_eq env width height w hsize]
  have hok1 : env.succeeded ((resizeEntry env width height w).trace ++
      .Application_Flush :: releaseEvents (resizeEntry env width height w).st.m_DepthBuffer)
      (.CreateCommittedResource .DEFAULT (depthBufferDesc width height) .DEPTH_WRITE) = true := by
    simpa [depthCreationSucceeds, resizeEntry] using hok
  rw [ResizeDepthBuffer_ok env width height (resizeEntry env width height w) hload hok1]
  simp [resizeEntry, resizedDepthBuffer, resizePrefix]

theorem Resize_loaded_error (env : Env) (width height : Nat) (w : World)
    (hsize : w.st.clientWidth ≠ width ∨ w.st.clientHeight ≠ height)
    (hload : w.st.m_ContentLoaded = true)
    (hok : depthCreationSucceeds env width height w = false) :
    Resize env width height w =
      (.error .failed,
        { st := flushedState (resizeEntry env width height w).st
          trace := w.trace ++
            (resizePrefix env width height ++
              (.Application_Flush :: releaseEvents w.st.m_DepthBuffer ++
                [.Native (.CreateCommittedResource .DEFAULT (depthBufferDesc width height)
                    .DEPTH_WRITE) false])) }) := by
  rw [Resize_eq env width height w hsize]
  have hok1 : env.succeeded ((resizeEntry env width height w).trace ++
      .Application_Flush :: releaseEvents (resizeEntry env width height w).st.m_DepthBuffer)
      (.CreateCommittedResource .DEFAULT (depthBufferDesc width height) .DEPTH_WRITE) = false := by
    simpa [depthCreationSucceeds, resizeEntry] using hok
  rw [ResizeDepthBuffer_error env width height (resizeEntry env width height w) hload hok1]
  simp [resizeEntry, resizePrefix]

/-- C3, as worded, fails: a size-changing `Resize` without content loaded performs no flush
and creates no depth buffer at all; and after `LoadContent` the viewport is stored
(position 3) before the flush (position 4), not after it. -/
theorem C3_resize_flush_counterexample :
    sampleWorld.st.clientWidth ≠ 800 ∧
    specResizeOrder (eventsOf (Resize sampleEnv 800 600) sampleWorld) = false ∧
    (eventsOf (Resize sampleEnv 800 600) sampleWorld).any Event.isFlush = false ∧
    (eventsOf (Resize sampleEnv 800 600) sampleWorld).any Event.isDepthBufferCreation = false ∧
    specResizeOrder (eventsOf (Resize sampleEnv 800 600) loadedWorld) = false ∧
    lastAt Event.isStoreViewport (eventsOf (Resize sampleEnv 800 600) loadedWorld) = 3 ∧
    firstAt Event.isFlush (eventsOf (Resize sampleEnv 800 600) loadedWorld) = 4 := by
  decide

/-- C3, amended: a call `Resize(width, height)` with a new size first hands the size to
`Application::Resize`, re-reads the backbuffer index and stores the new viewport.  Then, with
content loaded, it calls `Application::Flush`, after that flush releases the depth buffer held
so far (if any), and only then asks for the new depth buffer of `max(1, width)` by
`max(1, height)`; the creation succeeding, the buffer is stored in `m_DepthBuffer` and its view
is created, the creation failing, the call throws with `m_DepthBuffer` null; whether the
creation succeeds is the answer of the device at that moment.  No depth buffer is created
before the flush.  Without content loaded the call neither flushes nor releases or
creates a depth buffer. -/
theorem C3_resize_flush_amended (env : Env) (w : World) (width height : Nat)
    (hsize : w.st.clientWidth ≠ width ∨ w.st.clientHeight ≠ height) :
    (w.st.m_ContentLoaded = true →
      ∃ ok serial,
        ok = depthCreationSucceeds env width height w ∧
        eventsOf (Resize env width height) w =
          [.Application_Resize width height,
            .GetCurrentBackbufferIndex env.backbufferIndex,
            .Store_m_CurrentBackbufferIndex env.backbufferIndex,
            .Store_m_Viewport (resizeViewport width height),
            .Application_Flush] ++
          releaseEvents w.st.m_DepthBuffer ++
          [.Native (.CreateCommittedResource .DEFAULT
              (.Tex2D .D32_FLOAT (max 1 width) (max 1 height) 1 0 1 0 .ALLOW_DEPTH_STENCIL)
              .DEPTH_WRITE) ok] ++
          (if ok then [.CreateDepthStencilView
              { heap := .DEFAULT
                desc := .Tex2D .D32_FLOAT (max 1 width) (max 1 height) 1 0 1 0
                  .ALLOW_DEPTH_STENCIL
                initialState := .DEPTH_WRITE, serial := serial }] else []) ∧
        threw (Resize env width height) w = !ok ∧
        (Resize env width height w).2.st.m_DepthBuffer =
          (if ok then some
              { heap := .DEFAULT
                desc := .Tex2D .D32_FLOAT (max 1 width) (max 1 height) 1 0 1 0
                  .ALLOW_DEPTH_STENCIL
                initialState := .DEPTH_WRITE, serial := serial } else none)) ∧
    (w.st.m_ContentLoaded = false →
      eventsOf (Resize env width height) w =
        [.Application_Resize width height,
          .GetCurrentBackbufferIndex env.backbufferIndex,
          .Store_m_CurrentBackbufferIndex env.backbufferIndex,
          .Store_m_Viewport (resizeViewport width height)] ∧
      threw (Resize env width height) w = false ∧
      (Resize env width height w).2.st.m_DepthBuffer = w.st.m_DepthBuffer) := by
  constructor
  · intro hload
    refine ⟨depthCreationSucceeds env width height w,
      w.trace.length + 5 + (releaseEvents w.st.m_DepthBuffer).length, rfl, ?_⟩
    cases hok : depthCreationSucceeds env width height w
    · simp [eventsOf, threw, Resize_loaded_error env width height w hsize hload hok,
        resizePrefix, depthBufferDesc, flushedState]
    · simp [eventsOf, threw, Resize_loaded_ok env width height w hsize hload hok,
        resizePrefix, depthBufferDesc, resizedDepthBuffer]
  · intro hload
    simp [eventsOf, threw, Resize_unloaded env width height w hsize hload, resizeEntry,
      resizePrefix]

/-- C3 amended, at a resize of the 2400 x 1200 window to 800 x 600 after `LoadContent`: the
old depth buffer is released between the flush and the creation of the new one. -/
theorem C3_resize_flush_amended_witness :
    ∃ ok serial,
      ok = depthCreationSucceeds sampleEnv 800 600 loadedWorld ∧
      eventsOf (Resize sampleEnv 800 600) loadedWorld =
        [.Application_Resize 800 600,
          .GetCurrentBackbufferIndex sampleEnv.backbufferIndex,
          .Store_m_CurrentBackbufferIndex sampleEnv.backbufferIndex,
          .Store_m_Viewport (resizeViewport 800 600),
          .Application_Flush] ++
        releaseEvents loadedWorld.st.m_DepthBuffer ++
        [.Native (.CreateCommittedResource .DEFAULT
            (.Tex2D .D32_FLOAT (max 1 800) (max 1 600) 1 0 1 0 .ALLOW_DEPTH_STENCIL)
            .DEPTH_WRITE) ok] ++
        (if ok then [.CreateDepthStencilView
            { heap := .DEFAULT
              desc := .Tex2D .D32_FLOAT (max 1 800) (max 1 600) 1 0 1 0 .ALLOW_DEPTH_STENCIL
              initialState := .DEPTH_WRITE, serial := serial }] else []) ∧
      threw (Resize sampleEnv 800 600) loadedWorld = !ok ∧
      (Resize sampleEnv 800 600 loadedWorld).2.st.m_DepthBuffer =
        (if ok then some
            { heap := .DEFAULT
              desc := .Tex2D .D32_FLOAT (max 1 800) (max 1 600) 1 0 1 0 .ALLOW_DEPTH_STENCIL
              initialState := .DEPTH_WRITE, serial := serial } else none) :=
  (C3_resize_flush_amended sampleEnv loadedWorld 800 600 (Or.inl (by decide))).1 (by decide)

/-- C4, as worded, fails: resizing the loaded 2400 x 1200 window to 0 x 0 creates a depth
buffer of 1 x 1 while the viewport is 0 x 0; and resizing it to 16777217 x 1200 asks for a depth
buffer 16777217 wide while the viewport, a float, is 16777216 wide. -/
theorem C4_depth_buffer_size_counterexample :
    threw (Resize sampleEnv 0 0) loadedWorld = false ∧
    (Resize sampleEnv 0 0 loadedWorld).2.st.depthBufferWidth = some 1 ∧
    (Resize sampleEnv 0 0 loadedWorld).2.st.depthBufferHeight = some 1 ∧
    (Resize sampleEnv 0 0 loadedWorld).2.st.m_Viewport.Width = 0 ∧
    (Resize sampleEnv 0 0 loadedWorld).2.st.m_Viewport.Height = 0 ∧
    (Resize sampleEnv 16777217 1200 loadedWorld).2.st.depthBufferWidth = some 16777217 ∧
    (Resize sampleEnv 16777217 1200 loadedWorld).2.st.m_Viewport.Width = 16777216 := by
  decide

/-- C4, amended: after a call `Resize(width, height)` with a new size, content loaded and the
creation of the depth buffer succeeding, the depth buffer is `max(1, width)` wide and
`max(1, height)` high and the viewport is `(float)width` wide and `(float)height` high; so
for every width and height from 1 to `2^24` the depth buffer and the viewport both have
exactly the requested width and height. -/
theorem C4_depth_buffer_size_amended (env : Env) (w : World) (width height : Nat)
    (hsize : w.st.clientWidth ≠ width ∨ w.st.clientHeight ≠ height)
    (hload : w.st.m_ContentLoaded = true)
    (hok : threw (Resize env width height) w = false) :
    (Resize env width height w).2.st.depthBufferWidth = some (max 1 width) ∧
    (Resize env width height w).2.st.depthBufferHeight = some (max 1 height) ∧
    (Resize env width height w).2.st.m_Viewport.Width = floatOfUINT32 width ∧
    (Resize env width height w).2.st.m_Viewport.Height = floatOfUINT32 height ∧
    (1 ≤ width → width ≤ 2 ^ 24 → 1 ≤ height → height ≤ 2 ^ 24 →
      (Resize env width height w).2.st.depthBufferWidth = some width ∧
      (Resize env width height w).2.st.depthBufferHeight = some height ∧
      (Resize env width height w).2.st.m_Viewport.Width = width ∧
      (Resize env width height w).2.st.m_Viewport.Height = height) := by
  have hcreate : depthCreationSucceeds env width height w = true := by
    cases hc : depthCreationSucceeds env width height w
    · rw [threw, Resize_loaded_error env width height w hsize hload hc] at hok
      cases hok
    · rfl
  have heq := Resize_loaded_ok env width height w hsize hload hcreate
  have h1 : (Resize env width height w).2.st.depthBufferWidth = some (max 1 width) := by
    rw [heq]; rfl
  have h2 : (Resize env width height w).2.st.depthBufferHeight = some (max 1 height) := by
    rw [heq]; rfl
  have h3 : (Resize env width height w).2.st.m_Viewport.Width = floatOfUINT32 width := by
    rw [heq]; rfl
  have h4 : (Resize env width height w).2.st.m_Viewport.Height = floatOfUINT32 height := by
    rw [heq]; rfl
  refine ⟨h1, h2, h3, h4, ?_⟩
  intro hw1 hw2 hh1 hh2
  rw [h1, h2, h3, h4, floatOfUINT32_exact width hw2, floatOfUINT32_exact height hh2,
    Nat.max_eq_right hw1, Nat.max_eq_right hh1]
  exact ⟨rfl, rfl, rfl, rfl⟩

/-- C4 amended, at a resize of the loaded 2400 x 1200 window to 800 x 600. -/
theorem C4_depth_buffer_size_amended_witness :
    (Resize sampleEnv 800 600 loadedWorld).2.st.depthBufferWidth = some 800 ∧
    (Resize sampleEnv 800 600 loadedWorld).2.st.depthBufferHeight = some 600 ∧
    (Resize sampleEnv 800 600 loadedWorld).2.st.m_Viewport.Width = 800 ∧
    (Resize sampleEnv 800 600 loadedWorld).2.st.m_Viewport.Height = 600 :=
  (C4_depth_buffer_size_amended sampleEnv loadedWorld 800 600 (Or.inl (by decide)) rfl
    (by decide)).2.2.2.2 (by decide) (by decide) (by decide) (by decide)

/-! ## Mesh::UpdateBufferResource -/

theorem UpdateBufferResource_error1 (env : Env) (cl : List Command)
    (dst : Resource → State → State) (n e : Nat) (data : Option Nat)
    (flags : D3D12_RESOURCE_FLAGS) (w : World)
    (h1 : destinationSucceeds env n e flags w = false) :
    UpdateBufferResource env cl dst n e data flags w =
      (.error .failed,
        { w with trace := w.trace ++
            [.Native (.CreateCommittedResource .DEFAULT (.Buffer (uploadSize n e) flags)
              .COPY_DEST) false] }) := by
  simp [destinationSucceeds, uploadSize] at h1
  simp [UpdateBufferResource, CreateCommittedResource, ThrowIfFailed, h1, uploadSize]

theorem UpdateBufferResource_null (env : Env) (cl : List Command)
    (dst : Resource → State → State) (n e : Nat) (flags : D3D12_RESOURCE_FLAGS) (w : World)
    (h1 : destinationSucceeds env n e flags w = true) :
    UpdateBufferResource env cl dst n e none flags w =
      (.ok (cl, none),
        { st := dst (uploadDestination n e flags w) w.st
          trace := w.trace ++
            [.Native (.CreateCommittedResource .DEFAULT (.Buffer (uploadSize n e) flags)
              .COPY_DEST) true] }) := by
  simp [destinationSucceeds, uploadSize] at h1
  simp [UpdateBufferResource, CreateCommittedResource, ThrowIfFailed, h1, uploadSize,
    uploadDestination]

theorem UpdateBufferResource_error2 (env : Env) (cl : List Command)
    (dst : Resource → State → State) (n e p : Nat) (flags : D3D12_RESOURCE_FLAGS) (w : World)
    (h1 : destinationSucceeds env n e flags w = true)
    (h2 : intermediateSucceeds env n e flags w = false) :
    UpdateBufferResource env cl dst n e (some p) flags w =
      (.error .failed,
        { st := dst (uploadDestination n e flags w) w.st
          trace := w.trace ++
            [.Native (.CreateCommittedResource .DEFAULT (.Buffer (uploadSize n e) flags)
              .COPY_DEST) true,
             .Native (.CreateCommittedResource .UPLOAD (.Buffer (uploadSize n e) .NONE)
              .GENERIC_READ) false] }) := by
  simp [destinationSucceeds, intermediateSucceeds, uploadSize] at h1 h2
  simp [UpdateBufferResource, CreateCommittedResource, ThrowIfFailed, h1, h2, uploadSize,
    uploadDestination]

theorem UpdateBufferResource_ok (env : Env) (cl : List Command)
    (dst : Resource → State → State) (n e p : Nat) (flags : D3D12_RESOURCE_FLAGS) (w : World)
    (h1 : destinationSucceeds env n e flags w = true)
    (h2 : intermediateSucceeds env n e flags w = true) :
    UpdateBufferResource env cl dst n e (some p) flags w =
      (.ok (cl ++ [uploadCopy n e p flags w], some (uploadIntermediate n e w)),
        { st := dst (uploadDestination n e flags w) w.st
          trace := w.trace ++
            [.Native (.CreateCommittedResource .DEFAULT (.Buffer (uploadSize n e) flags)
              .COPY_DEST) true,
             .Native (.CreateCommittedResource .UPLOAD (.Buffer (uploadSize n e) .NONE)
              .GENERIC_READ) true,
             .Record (uploadCopy n e p flags w)] }) := by
  simp [destinationSucceeds, intermediateSucceeds, uploadSize] at h1 h2
  simp [UpdateBufferResource, CreateCommittedResource, ThrowIfFailed, h1, h2, uploadSize,
    uploadDestination, uploadIntermediate, uploadCopy]

/-- C5, as worded, fails: called with a null `bufferData` (and no call failing),
`UpdateBufferResource` creates the destination buffer only: no buffer in the upload heap
and no copy on the command list. -/
theorem C5_upload_contract_counterexample :
    threw (UpdateBufferResource sampleEnv [] (fun r s => { s with m_VertexBuffer := some r })
      24 44 none .NONE) sampleWorld = false ∧
    (eventsOf (UpdateBufferResource sampleEnv [] (fun r s => { s with m_VertexBuffer := some r })
      24 44 none .NONE) sampleWorld).countP (Event.createsBufferIn .DEFAULT) = 1 ∧
    (eventsOf (UpdateBufferResource sampleEnv [] (fun r s => { s with m_VertexBuffer := some r })
      24 44 none .NONE) sampleWorld).countP (Event.createsBufferIn .UPLOAD) = 0 ∧
    (eventsOf (UpdateBufferResource sampleEnv [] (fun r s => { s with m_VertexBuffer := some r })
      24 44 none .NONE) sampleWorld).countP Event.isRecord = 0 := by
  decide

/-- C5, amended: a call of `UpdateBufferResource` in which no native call fails creates one
destination buffer in the default heap, of `numElements * elementSize` bytes (the product in
`size_t`) and with the flags passed in, and stores it through `pDestinationResource`.  With
a non-null `bufferData` it then creates one staging buffer of the same size in the upload heap
and records, on the command list passed in, one copy from the staging buffer to the
destination buffer with `RowPitch = SlicePitch =` that size; with a null `bufferData` it does
nothing more. -/
theorem C5_upload_contract_amended (env : Env) (cl : List Command)
    (dst : Resource → State → State) (n e : Nat) (bufferData : Option Nat)
    (flags : D3D12_RESOURCE_FLAGS) (w : World)
    (hok : threw (UpdateBufferResource env cl dst n e bufferData flags) w = false) :
    (UpdateBufferResource env cl dst n e bufferData flags w).2.st =
      dst { heap := .DEFAULT, desc := .Buffer ((n * e) % 2 ^ 64) flags,
            initialState := .COPY_DEST, serial := w.trace.length } w.st ∧
    match bufferData with
    | some p =>
      eventsOf (UpdateBufferResource env cl dst n e (some p) flags) w =
        [.Native (.CreateCommittedResource .DEFAULT (.Buffer ((n * e) % 2 ^ 64) flags)
            .COPY_DEST) true,
          .Native (.CreateCommittedResource .UPLOAD (.Buffer ((n * e) % 2 ^ 64) .NONE)
            .GENERIC_READ) true,
          .Record (.UpdateSubresources
            { heap := .DEFAULT, desc := .Buffer ((n * e) % 2 ^ 64) flags,
              initialState := .COPY_DEST, serial := w.trace.length }
            { heap := .UPLOAD, desc := .Buffer ((n * e) % 2 ^ 64) .NONE,
              initialState := .GENERIC_READ, serial := w.trace.length + 1 }
            0 0 1
            { pData := p, RowPitch := (n * e) % 2 ^ 64, SlicePitch := (n * e) % 2 ^ 64 })] ∧
      (UpdateBufferResource env cl dst n e (some p) flags w).1 =
        .ok (cl ++ [.UpdateSubresources
            { heap := .DEFAULT, desc := .Buffer ((n * e) % 2 ^ 64) flags,
              initialState := .COPY_DEST, serial := w.trace.length }
            { heap := .UPLOAD, desc := .Buffer ((n * e) % 2 ^ 64) .NONE,
              initialState := .GENERIC_READ, serial := w.trace.length + 1 }
            0 0 1
            { pData := p, RowPitch := (n * e) % 2 ^ 64, SlicePitch := (n * e) % 2 ^ 64 }],
          some { heap := .UPLOAD, desc := .Buffer ((n * e) % 2 ^ 64) .NONE,
                 initialState := .GENERIC_READ, serial := w.trace.length + 1 })
    | none =>
      eventsOf (UpdateBufferResource env cl dst n e none flags) w =
        [.Native (.CreateCommittedResource .DEFAULT (.Buffer ((n * e) % 2 ^ 64) flags)
            .COPY_DEST) true] ∧
      (UpdateBufferResource env cl dst n e none flags w).1 = .ok (cl, none) := by
  cases h1 : destinationSucceeds env n e flags w
  · rw [threw, UpdateBufferResource_error1 env cl dst n e bufferData flags w h1] at hok
    cases hok
  · cases bufferData with
    | none =>
      have heq := UpdateBufferResource_null env cl dst n e flags w h1
      refine ⟨by rw [heq]; rfl, ?_, by rw [heq]⟩
      exact eventsOf_eq _ _ _ _ _ heq
    | some p =>
      cases h2 : intermediateSucceeds env n e flags w
      · rw [threw, UpdateBufferResource_error2 env cl dst n e p flags w h1 h2] at hok
        cases hok
      · have heq := UpdateBufferResource_ok env cl dst n e p flags w h1 h2
        refine ⟨by rw [heq]; rfl, ?_, by rw [heq]; rfl⟩
        exact eventsOf_eq _ _ _ _ _ heq

/-- C5 amended, at the upload of 24 vertices of 44 bytes from address 4096. -/
theorem C5_upload_contract_amended_witness :
    eventsOf (UpdateBufferResource sampleEnv [] (fun r s => { s with m_VertexBuffer := some r })
        24 44 (some 4096) .NONE) sampleWorld =
      [.Native (.CreateCommittedResource .DEFAULT (.Buffer ((24 * 44) % 2 ^ 64) .NONE)
          .COPY_DEST) true,
        .Native (.CreateCommittedResource .UPLOAD (.Buffer ((24 * 44) % 2 ^ 64) .NONE)
          .GENERIC_READ) true,
        .Record (.UpdateSubresources
          { heap := .DEFAULT, desc := .Buffer ((24 * 44) % 2 ^ 64) .NONE,
            initialState := .COPY_DEST, serial := sampleWorld.trace.length }
          { heap := .UPLOAD, desc := .Buffer ((24 * 44) % 2 ^ 64) .NONE,
            initialState := .GENERIC_READ, serial := sampleWorld.trace.length + 1 }
          0 0 1
          { pData := 4096, RowPitch := (24 * 44) % 2 ^ 64, SlicePitch := (24 * 44) % 2 ^ 64 })] :=
  (C5_upload_contract_amended sampleEnv [] (fun r s => { s with m_VertexBuffer := some r })
    24 44 (some 4096) .NONE sampleWorld (by decide)).2.1

/-! ## Fail-fast, compositionally -/

theorem FailFastM.of_pure {α : Type} (a : α) : FailFastM (pure a : M α) := by
  refine ⟨fun w => ?_⟩
  exact ⟨[], by simp, by simp [FailFastOutcome]⟩

theorem FailFastM.of_bind {α β : Type} {m : M α} {f : α → M β} (hm : FailFastM m)
    (hf : ∀ a, FailFastM (f a)) : FailFastM (m >>= f) := by
  refine ⟨fun w => ?_⟩
  obtain ⟨evs1, ht1, hq1⟩ := hm.run w
  rw [bind_apply]
  rcases hmw : m w with ⟨r, w1⟩
  rw [hmw] at ht1 hq1
  cases r with
  | error e => exact ⟨evs1, ht1, hq1⟩
  | ok a =>
    obtain ⟨evs2, ht2, hq2⟩ := (hf a).run w1
    refine ⟨evs1 ++ evs2, ?_, ?_⟩
    · show (f a w1).2.trace = _
      rw [ht2]
      simp only at ht1
      rw [ht1, List.append_assoc]
    · show FailFastOutcome (f a w1).1 _
      simp only [FailFastOutcome] at hq1
      rcases hfa : (f a w1).1 with e | b
      · rw [hfa] at hq2
        obtain ⟨pre, x, hx, hpre, hlast⟩ := hq2
        refine ⟨evs1 ++ pre, x, ?_, ?_, hlast⟩
        · rw [hx, List.append_assoc]
        · rw [List.any_append, hq1, hpre]; rfl
      · rw [hfa] at hq2
        simp only [FailFastOutcome] at hq2 ⊢
        rw [List.any_append, hq1, hq2]; rfl

theorem FailFastM.of_emit (e : Event) (h : e.isThrowingFailure = false) : FailFastM (emit e) := by
  refine ⟨fun w => ?_⟩
  exact ⟨[e], rfl, by simp [FailFastOutcome, h]⟩

theorem FailFastM.of_getState : FailFastM getState := by
  refine ⟨fun w => ?_⟩
  exact ⟨[], by simp, by simp [FailFastOutcome]⟩

theorem FailFastM.of_getWorld : FailFastM getWorld := by
  refine ⟨fun w => ?_⟩
  exact ⟨[], by simp, by simp [FailFastOutcome]⟩

theorem FailFastM.of_update (f : State → State) : FailFastM (update f) := by
  refine ⟨fun w => ?_⟩
  exact ⟨[], by simp, by simp [FailFastOutcome]⟩

theorem FailFastM.of_throwIfFailed (env : Env) (c : NativeCall)
    (hc : (Event.Native c false).isThrowingFailure = true) :
    FailFastM (ThrowIfFailed (native env c)) := by
  refine ⟨fun w => ?_⟩
  cases h : env.succeeded w.trace c
  · rw [ThrowIfFailed_native_error env c w h]
    exact ⟨[.Native c false], rfl, [], _, rfl, rfl, hc⟩
  · rw [ThrowIfFailed_native_ok env c w h]
    refine ⟨[.Native c true], rfl, ?_⟩
    cases c <;> simp [FailFastOutcome, Event.isThrowingFailure]

theorem FailFastM.of_checkFeatureSupport (env : Env) :
    FailFastM (native env .CheckFeatureSupport) := by
  refine ⟨fun w => ?_⟩
  exact ⟨[.Native .CheckFeatureSupport (env.succeeded w.trace .CheckFeatureSupport)], rfl,
    by simp [FailFastOutcome, Event.isThrowingFailure]⟩

theorem FailFastM.toFailFast {α : Type} {m : M α} (hm : FailFastM m) (w : World) :
    failFast m w = true := by
  obtain ⟨evs, ht, hq⟩ := hm.run w
  have hev : eventsOf m w = evs := by simp [eventsOf, ht]
  simp only [Mesh.failFast, hev, threw]
  rcases hr : (m w).1 with e | a
  · rw [hr] at hq
    obtain ⟨pre, x, hx, hpre, hlast⟩ := hq
    subst hx
    simp [hpre, hlast]
  · rw [hr] at hq
    simp only [FailFastOutcome] at hq
    have hdrop : evs.dropLast.any Event.isThrowingFailure = false := by
      rw [List.any_eq_false] at hq ⊢
      intro x hx
      exact hq x (List.dropLast_subset evs hx)
    simp [hq, hdrop]

theorem releaseComPtr_failFastM (r : Option Resource) : FailFastM (releaseComPtr r) := by
  cases r with
  | none => exact FailFastM.of_pure _
  | some r => exact FailFastM.of_emit _ rfl

theorem ReleaseAndGetAddressOf_failFastM (member : State → Option Resource)
    (clear : State → State) : FailFastM (ReleaseAndGetAddressOf member clear) := by
  unfold ReleaseAndGetAddressOf
  exact FailFastM.of_bind FailFastM.of_getState
    (fun _ => FailFastM.of_bind (releaseComPtr_failFastM _) (fun _ => FailFastM.of_update _))

theorem CreateCommittedResource_failFastM (env : Env) (heap : D3D12_HEAP_TYPE)
    (desc : ResourceDesc) (state : D3D12_RESOURCE_STATES) :
    FailFastM (CreateCommittedResource env heap desc state) := by
  unfold CreateCommittedResource
  repeat' first
    | intro _
    | exact FailFastM.of_pure _
    | exact FailFastM.of_getWorld
    | exact FailFastM.of_throwIfFailed _ _ rfl
    | apply FailFastM.of_bind

theorem record_failFastM (cl : List Command) (c : Command) : FailFastM (record cl c) := by
  unfold record
  repeat' first
    | intro _
    | exact FailFastM.of_pure _
    | exact FailFastM.of_emit _ rfl
    | apply FailFastM.of_bind

theorem UpdateBufferResource_failFastM (env : Env) (cl : List Command)
    (dst : Resource → State → State) (n e : Nat) (data : Option Nat)
    (flags : D3D12_RESOURCE_FLAGS) :
    FailFastM (UpdateBufferResource env cl dst n e data flags) := by
  unfold UpdateBufferResource
  repeat' first
    | intro _
    | exact FailFastM.of_pure _
    | exact FailFastM.of_update _
    | exact CreateCommittedResource_failFastM _ _ _ _
    | exact record_failFastM _ _
    | apply FailFastM.of_bind
    | split

theorem Application_Flush_failFastM : FailFastM Application_Flush := by
  unfold Application_Flush
  repeat' first
    | intro _
    | exact FailFastM.of_update _
    | exact FailFastM.of_emit _ rfl
    | apply FailFastM.of_bind

theorem ResizeDepthBuffer_failFastM (env : Env) (width height : Nat) :
    FailFastM (ResizeDepthBuffer env width height) := by
  unfold ResizeDepthBuffer
  repeat' first
    | intro _
    | exact FailFastM.of_pure _
    | exact FailFastM.of_getState
    | exact FailFastM.of_update _
    | exact FailFastM.of_emit _ rfl
    | exact Application_Flush_failFastM
    | exact CreateCommittedResource_failFastM _ _ _ _
    | exact ReleaseAndGetAddressOf_failFastM _ _
    | apply FailFastM.of_bind
    | split

theorem set_m_VertexBufferView_failFastM (v : D3D12_VERTEX_BUFFER_VIEW) :
    FailFastM (set_m_VertexBufferView v) := by
  unfold set_m_VertexBufferView
  exact FailFastM.of_bind (FailFastM.of_update _) (fun _ => FailFastM.of_emit _ rfl)

theorem set_m_IndexBufferView_failFastM (v : D3D12_INDEX_BUFFER_VIEW) :
    FailFastM (set_m_IndexBufferView v) := by
  unfold set_m_IndexBufferView
  exact FailFastM.of_bind (FailFastM.of_update _) (fun _ => FailFastM.of_emit _ rfl)

theorem set_m_ContentLoaded_failFastM (b : Bool) : FailFastM (set_m_ContentLoaded b) := by
  unfold set_m_ContentLoaded
  exact FailFastM.of_bind (FailFastM.of_update _) (fun _ => FailFastM.of_emit _ rfl)

theorem GetCommandList_failFastM (q : D3D12_COMMAND_LIST_TYPE) :
    FailFastM (GetCommandList q) := by
  unfold GetCommandList
  exact FailFastM.of_bind (FailFastM.of_emit _ rfl) (fun _ => FailFastM.of_pure _)

theorem ExecuteCommandList_failFastM (env : Env) (q : D3D12_COMMAND_LIST_TYPE)
    (cl : List Command) : FailFastM (ExecuteCommandList env q cl) := by
  unfold ExecuteCommandList
  repeat' first
    | exact FailFastM.of_pure _
    | exact FailFastM.of_getState
    | exact FailFastM.of_update _
    | exact FailFastM.of_emit _ rfl
    | apply FailFastM.of_bind
    | intro _

theorem WaitForFenceValue_failFastM (env : Env) (q : D3D12_COMMAND_LIST_TYPE) (v : Nat) :
    FailFastM (WaitForFenceValue env q v) := by
  unfold WaitForFenceValue
  exact FailFastM.of_bind (FailFastM.of_emit _ rfl) (fun _ => FailFastM.of_update _)

theorem LoadContent_vertexBuffer_failFastM (env : Env) (cl : List Command) :
    FailFastM (LoadContent_vertexBuffer env cl) := by
  unfold LoadContent_vertexBuffer
  repeat' first
    | exact FailFastM.of_pure _
    | exact FailFastM.of_getState
    | exact UpdateBufferResource_failFastM _ _ _ _ _ _ _
    | exact set_m_VertexBufferView_failFastM _
    | exact ReleaseAndGetAddressOf_failFastM _ _
    | apply FailFastM.of_bind
    | intro _

theorem LoadContent_indexBuffer_failFastM (env : Env) (cl : List Command) :
    FailFastM (LoadContent_indexBuffer env cl) := by
  unfold LoadContent_indexBuffer
  repeat' first
    | exact FailFastM.of_pure _
    | exact FailFastM.of_getState
    | exact UpdateBufferResource_failFastM _ _ _ _ _ _ _
    | exact set_m_IndexBufferView_failFastM _
    | exact ReleaseAndGetAddressOf_failFastM _ _
    | apply FailFastM.of_bind
    | intro _

theorem LoadContent_dsvHeap_failFastM (env : Env) : FailFastM (LoadContent_dsvHeap env) := by
  unfold LoadContent_dsvHeap
  exact FailFastM.of_bind (FailFastM.of_throwIfFailed _ _ rfl) (fun _ => FailFastM.of_update _)

theorem LoadContent_pso_failFastM (env : Env) (path : String) :
    FailFastM (LoadContent_pso env path) := by
  unfold LoadContent_pso
  repeat' first
    | exact FailFastM.of_pure _
    | exact FailFastM.of_update _
    | exact FailFastM.of_throwIfFailed _ _ rfl
    | exact FailFastM.of_checkFeatureSupport _
    | apply FailFastM.of_bind
    | intro _

theorem LoadContent_sync_failFastM (env : Env) (cl : List Command) :
    FailFastM (LoadContent_sync env cl) := by
  unfold LoadContent_sync
  exact FailFastM.of_bind (ExecuteCommandList_failFastM _ _ _)
    (fun _ => WaitForFenceValue_failFastM _ _ _)

theorem LoadContent_failFastM (env : Env) (shaderBlobPath fbxFilePath : String) :
    FailFastM (LoadContent env shaderBlobPath fbxFilePath) := by
  unfold LoadContent
  repeat' first
    | exact FailFastM.of_pure _
    | exact FailFastM.of_getState
    | exact FailFastM.of_update _
    | exact FailFastM.of_emit _ rfl
    | exact GetCommandList_failFastM _
    | exact LoadContent_vertexBuffer_failFastM _ _
    | exact LoadContent_indexBuffer_failFastM _ _
    | exact LoadContent_dsvHeap_failFastM _
    | exact LoadContent_pso_failFastM _ _
    | exact LoadContent_sync_failFastM _ _
    | exact set_m_ContentLoaded_failFastM _
    | exact ResizeDepthBuffer_failFastM _ _ _
    | exact releaseComPtr_failFastM _
    | apply FailFastM.of_bind
    | intro _

/-- When `CheckFeatureSupport` fails in the block `// PSO`, the block goes on and serializes the
root signature in version 1.0. -/
theorem LoadContent_pso_fallback (env : Env) (path : String) (w : World)
    (h1 : env.succeeded w.trace (.D3DReadFileToBlob (path ++ "VertexShader.cso")) = true)
    (h2 : env.succeeded
      (w.trace ++ [.Native (.D3DReadFileToBlob (path ++ "VertexShader.cso")) true])
      (.D3DReadFileToBlob (path ++ "PixelShader.cso")) = true)
    (h3 : env.succeeded
      (w.trace ++ [.Native (.D3DReadFileToBlob (path ++ "VertexShader.cso")) true,
        .Native (.D3DReadFileToBlob (path ++ "PixelShader.cso")) true])
      .CheckFeatureSupport = false) :
    ∃ ok, (eventsOf (LoadContent_pso env path) w).take 4 =
      [.Native (.D3DReadFileToBlob (path ++ "VertexShader.cso")) true,
        .Native (.D3DReadFileToBlob (path ++ "PixelShader.cso")) true,
        .Native .CheckFeatureSupport false,
        .Native (.D3DX12SerializeVersionedRootSignature .VERSION_1_0) ok] := by
  refine ⟨env.succeeded
      (w.trace ++ [.Native (.D3DReadFileToBlob (path ++ "VertexShader.cso")) true,
        .Native (.D3DReadFileToBlob (path ++ "PixelShader.cso")) true,
        .Native .CheckFeatureSupport false])
      (.D3DX12SerializeVersionedRootSignature .VERSION_1_0), ?_⟩
  cases hs : env.succeeded
      (w.trace ++ [.Native (.D3DReadFileToBlob (path ++ "VertexShader.cso")) true,
        .Native (.D3DReadFileToBlob (path ++ "PixelShader.cso")) true,
        .Native .CheckFeatureSupport false])
      (.D3DX12SerializeVersionedRootSignature .VERSION_1_0)
  · simp [eventsOf, LoadContent_pso, ThrowIfFailed, h1, h2, h3, hs]
  · cases hr : env.succeeded
        (w.trace ++ [.Native (.D3DReadFileToBlob (path ++ "VertexShader.cso")) true,
          .Native (.D3DReadFileToBlob (path ++ "PixelShader.cso")) true,
          .Native .CheckFeatureSupport false,
          .Native (.D3DX12SerializeVersionedRootSignature .VERSION_1_0) true])
        .CreateRootSignature
    · simp [eventsOf, LoadContent_pso, ThrowIfFailed, h1, h2, h3, hs, hr]
    · cases hp : env.succeeded
          (w.trace ++ [.Native (.D3DReadFileToBlob (path ++ "VertexShader.cso")) true,
            .Native (.D3DReadFileToBlob (path ++ "PixelShader.cso")) true,
            .Native .CheckFeatureSupport false,
            .Native (.D3DX12SerializeVersionedRootSignature .VERSION_1_0) true,
            .Native .CreateRootSignature true])
          .CreatePipelineState <;>
      simp [eventsOf, LoadContent_pso, ThrowIfFailed, h1, h2, h3, hs, hr, hp]

/-- C6, as worded, fails: when `CheckFeatureSupport` fails and every other call succeeds,
`LoadContent` does not throw but returns `true`; it goes on with root signature version 1.0,
and the failed call is followed by eleven more events of the same call. -/
theorem C6_fail_fast_counterexample :
    specFailFast (LoadContent noFeatureEnv "" "") sampleWorld = false ∧
    valueOf (LoadContent noFeatureEnv "" "") sampleWorld = some true ∧
    Event.Native .CheckFeatureSupport false ∈ eventsOf (LoadContent noFeatureEnv "" "") sampleWorld ∧
    Event.Native (.D3DX12SerializeVersionedRootSignature .VERSION_1_0) true ∈
      eventsOf (LoadContent noFeatureEnv "" "") sampleWorld ∧
    (eventsOf (LoadContent noFeatureEnv "" "") sampleWorld).length -
      firstAt Event.isFailure (eventsOf (LoadContent noFeatureEnv "" "") sampleWorld) = 12 := by
  decide


/-- C6, amended: `LoadContent`, `UpdateBufferResource` and `ResizeDepthBuffer` throw exactly
when one of their native calls under `ThrowIfFailed` fails, and such a failed call is the last
event of the operation (nothing is retried, nothing is called after it).  The one native call
not under `ThrowIfFailed`, `CheckFeatureSupport` in the block `// PSO` of `LoadContent`, does
not make the operation throw when it fails: the block goes on and serializes the root
signature in version 1.0. -/
theorem C6_fail_fast_amended (env : Env) (w : World) (shaderBlobPath fbxFilePath : String)
    (cl : List Command) (dst : Resource → State → State) (n e : Nat) (data : Option Nat)
    (flags : D3D12_RESOURCE_FLAGS) (width height : Nat) :
    (threw (LoadContent env shaderBlobPath fbxFilePath) w =
        (eventsOf (LoadContent env shaderBlobPath fbxFilePath) w).any Event.isThrowingFailure ∧
      (eventsOf (LoadContent env shaderBlobPath fbxFilePath) w).dropLast.any
        Event.isThrowingFailure = false) ∧
    (threw (UpdateBufferResource env cl dst n e data flags) w =
        (eventsOf (UpdateBufferResource env cl dst n e data flags) w).any
          Event.isThrowingFailure ∧
      (eventsOf (UpdateBufferResource env cl dst n e data flags) w).dropLast.any
        Event.isThrowingFailure = false) ∧
    (threw (ResizeDepthBuffer env width height) w =
        (eventsOf (ResizeDepthBuffer env width height) w).any Event.isThrowingFailure ∧
      (eventsOf (ResizeDepthBuffer env width height) w).dropLast.any
        Event.isThrowingFailure = false) ∧
    (env.succeeded w.trace (.D3DReadFileToBlob (shaderBlobPath ++ "VertexShader.cso")) = true →
      env.succeeded
        (w.trace ++ [.Native (.D3DReadFileToBlob (shaderBlobPath ++ "VertexShader.cso")) true])
        (.D3DReadFileToBlob (shaderBlobPath ++ "PixelShader.cso")) = true →
      env.succeeded
        (w.trace ++ [.Native (.D3DReadFileToBlob (shaderBlobPath ++ "VertexShader.cso")) true,
          .Native (.D3DReadFileToBlob (shaderBlobPath ++ "PixelShader.cso")) true])
        .CheckFeatureSupport = false →
      ∃ ok, (eventsOf (LoadContent_pso env shaderBlobPath) w).take 4 =
        [.Native (.D3DReadFileToBlob (shaderBlobPath ++ "VertexShader.cso")) true,
          .Native (.D3DReadFileToBlob (shaderBlobPath ++ "PixelShader.cso")) true,
          .Native .CheckFeatureSupport false,
          .Native (.D3DX12SerializeVersionedRootSignature .VERSION_1_0) ok]) := by
  have h1 := (LoadContent_failFastM env shaderBlobPath fbxFilePath).toFailFast w
  have h2 := (UpdateBufferResource_failFastM env cl dst n e data flags).toFailFast w
  have h3 := (ResizeDepthBuffer_failFastM env width height).toFailFast w
  simp only [failFast, Bool.and_eq_true, beq_iff_eq, Bool.not_eq_true'] at h1 h2 h3
  exact ⟨h1, h2, h3, LoadContent_pso_fallback env shaderBlobPath w⟩

/-- C6 amended, with `CheckFeatureSupport` failing in the block `// PSO`: the next call
serializes the root signature in version 1.0. -/
theorem C6_fail_fast_amended_witness :
    ∃ ok, (eventsOf (LoadContent_pso noFeatureEnv "") sampleWorld).take 4 =
      [.Native (.D3DReadFileToBlob ("" ++ "VertexShader.cso")) true,
        .Native (.D3DReadFileToBlob ("" ++ "PixelShader.cso")) true,
        .Native .CheckFeatureSupport false,
        .Native (.D3DX12SerializeVersionedRootSignature .VERSION_1_0) ok] :=
  (C6_fail_fast_amended noFeatureEnv sampleWorld "" "" [] (fun _ s => s) 0 0 none .NONE 0 0).2.2.2
    (by decide) (by decide) (by decide)

/-! ## State invariants and event properties, compositionally -/

theorem Keeps.keeps_pure {α : Type} {I : State → Prop} {P : Event → Prop} (a : α) :
    Keeps I P (pure a : M α) :=
  ⟨fun w hI => ⟨[], by simp, hI, by simp⟩⟩

theorem Keeps.keeps_bind {α β : Type} {I : State → Prop} {P : Event → Prop} {m : M α}
    {f : α → M β} (hm : Keeps I P m) (hf : ∀ a, Keeps I P (f a)) : Keeps I P (m >>= f) := by
  refine ⟨fun w hI => ?_⟩
  obtain ⟨evs1, ht1, hI1, hp1⟩ := hm.run w hI
  rw [bind_apply]
  rcases hmw : m w with ⟨r, w1⟩
  rw [hmw] at ht1 hI1
  cases r with
  | error e => exact ⟨evs1, ht1, hI1, hp1⟩
  | ok a =>
    obtain ⟨evs2, ht2, hI2, hp2⟩ := (hf a).run w1 hI1
    refine ⟨evs1 ++ evs2, ?_, hI2, ?_⟩
    · show (f a w1).2.trace = _
      rw [ht2]
      simp only at ht1
      rw [ht1, List.append_assoc]
    · intro e he
      rcases List.mem_append.mp he with h | h
      · exact hp1 e h
      · exact hp2 e h

theorem Keeps.keeps_emit {I : State → Prop} {P : Event → Prop} (e : Event) (h : P e) :
    Keeps I P (emit e) :=
  ⟨fun w hI => ⟨[e], rfl, hI, by simpa using h⟩⟩

theorem Keeps.keeps_getState {I : State → Prop} {P : Event → Prop} : Keeps I P getState :=
  ⟨fun w hI => ⟨[], by simp, hI, by simp⟩⟩

theorem Keeps.keeps_getWorld {I : State → Prop} {P : Event → Prop} : Keeps I P getWorld :=
  ⟨fun w hI => ⟨[], by simp, hI, by simp⟩⟩

theorem Keeps.keeps_update {I : State → Prop} {P : Event → Prop} (f : State → State)
    (h : ∀ s, I s → I (f s)) : Keeps I P (update f) :=
  ⟨fun w hI => ⟨[], by simp, h w.st hI, by simp⟩⟩

theorem Keeps.keeps_throwIfFailed {I : State → Prop} {P : Event → Prop} (env : Env) (c : NativeCall)
    (h : ∀ ok, P (.Native c ok)) : Keeps I P (ThrowIfFailed (native env c)) := by
  refine ⟨fun w hI => ?_⟩
  cases hs : env.succeeded w.trace c
  · rw [ThrowIfFailed_native_error env c w hs]
    exact ⟨[.Native c false], rfl, hI, by simpa using h false⟩
  · rw [ThrowIfFailed_native_ok env c w hs]
    exact ⟨[.Native c true], rfl, hI, by simpa using h true⟩

theorem Keeps.keeps_native {I : State → Prop} {P : Event → Prop} (env : Env) (c : NativeCall)
    (h : ∀ ok, P (.Native c ok)) : Keeps I P (native env c) :=
  ⟨fun w hI => ⟨[.Native c (env.succeeded w.trace c)], rfl, hI, by simpa using h _⟩⟩

theorem releaseComPtr_keeps (env : Env) (r : Option Resource) :
    Keeps (Loaded env) (goodView env) (releaseComPtr r) := by
  cases r with
  | none => exact Keeps.keeps_pure _
  | some r => exact Keeps.keeps_emit _ trivial

theorem ReleaseAndGetAddressOf_keeps (env : Env) (member : State → Option Resource)
    (clear : State → State) (h : ∀ s, Loaded env s → Loaded env (clear s)) :
    Keeps (Loaded env) (goodView env) (ReleaseAndGetAddressOf member clear) := by
  unfold ReleaseAndGetAddressOf
  exact Keeps.keeps_bind Keeps.keeps_getState
    (fun _ => Keeps.keeps_bind (releaseComPtr_keeps env _) (fun _ => Keeps.keeps_update _ h))

theorem CreateCommittedResource_keeps (env env1 : Env) (heap : D3D12_HEAP_TYPE)
    (desc : ResourceDesc) (state : D3D12_RESOURCE_STATES) :
    Keeps (Loaded env1) (goodView env1) (CreateCommittedResource env heap desc state) := by
  unfold CreateCommittedResource
  repeat' first
    | exact Keeps.keeps_pure _
    | exact Keeps.keeps_getWorld
    | exact Keeps.keeps_throwIfFailed _ _ (fun _ => trivial)
    | apply Keeps.keeps_bind
    | intro _

theorem ResizeDepthBuffer_keeps (env : Env) (width height : Nat) :
    Keeps (Loaded env) (goodView env) (ResizeDepthBuffer env width height) := by
  unfold ResizeDepthBuffer Application_Flush
  repeat' first
    | exact Keeps.keeps_pure _
    | exact Keeps.keeps_getState
    | exact Keeps.keeps_update _ (fun _ h => h)
    | exact Keeps.keeps_emit _ trivial
    | exact CreateCommittedResource_keeps _ _ _ _ _
    | exact ReleaseAndGetAddressOf_keeps _ _ _ (fun _ h => h)
    | apply Keeps.keeps_bind
    | intro _
    | split

/-! ## The blocks of Mesh::LoadContent -/

theorem UpdateBufferResource_keeps (env env1 : Env) (cl : List Command)
    (dst : Resource → State → State) (n e : Nat) (data : Option Nat)
    (flags : D3D12_RESOURCE_FLAGS) (hdst : ∀ r s, Loaded env1 s → Loaded env1 (dst r s)) :
    Keeps (Loaded env1) (goodView env1) (UpdateBufferResource env cl dst n e data flags) := by
  unfold UpdateBufferResource record
  repeat' first
    | exact Keeps.keeps_pure _
    | exact Keeps.keeps_update _ (hdst _)
    | exact Keeps.keeps_emit _ trivial
    | exact CreateCommittedResource_keeps _ _ _ _ _
    | apply Keeps.keeps_bind
    | intro _
    | split

/-- A successful upload has stored the destination resource through `pDestinationResource`. -/
theorem UpdateBufferResource_ok_state (env : Env) (cl : List Command)
    (dst : Resource → State → State) (n e : Nat) (data : Option Nat)
    (flags : D3D12_RESOURCE_FLAGS) (w : World)
    (hok : threw (UpdateBufferResource env cl dst n e data flags) w = false) :
    (UpdateBufferResource env cl dst n e data flags w).2.st =
      dst (uploadDestination n e flags w) w.st := by
  cases h1 : destinationSucceeds env n e flags w
  · rw [threw, UpdateBufferResource_error1 env cl dst n e data flags w h1] at hok
    cases hok
  · cases data with
    | none => rw [UpdateBufferResource_null env cl dst n e flags w h1]
    | some p =>
      cases h2 : intermediateSucceeds env n e flags w
      · rw [threw, UpdateBufferResource_error2 env cl dst n e p flags w h1 h2] at hok
        cases hok
      · rw [UpdateBufferResource_ok env cl dst n e p flags w h1 h2]

theorem LoadContent_vertexBuffer_eq (env : Env) (cl : List Command) (w : World) :
    LoadContent_vertexBuffer env cl w =
      (UpdateBufferResource env cl (fun r s => { s with m_VertexBuffer := some r })
          w.st.vertices.size env.sizeofVertexPosColor w.st.vertices.addressOfFirst .NONE >>=
        storeVertexView env w.st.vertices) (vertexEntry w) := by
  simp only [LoadContent_vertexBuffer, bind_apply, getState_apply,
    ReleaseAndGetAddressOf_apply, vertexEntry]
  rfl

theorem LoadContent_indexBuffer_eq (env : Env) (cl : List Command) (w : World) :
    LoadContent_indexBuffer env cl w =
      (UpdateBufferResource env cl (fun r s => { s with m_IndexBuffer := some r })
          w.st.indicies.size 2 w.st.indicies.addressOfFirst .NONE >>=
        storeIndexView w.st.indicies) (indexEntry w) := by
  simp only [LoadContent_indexBuffer, bind_apply, getState_apply,
    ReleaseAndGetAddressOf_apply, indexEntry]
  rfl

theorem goodView_releaseEvents (env : Env) (o : Option Resource) :
    ∀ e ∈ releaseEvents o, goodView env e := by
  intro e he
  cases o with
  | none => simp [releaseEvents] at he
  | some r =>
    simp only [releaseEvents, List.mem_singleton] at he
    subst he
    trivial

theorem goodView_vertex (env : Env) (r : Resource) (hh : r.heap = .DEFAULT)
    (hs : r.byteSize = (env.fbxVertices.size * env.sizeofVertexPosColor) % 2 ^ 64) :
    goodView env (.Store_m_VertexBufferView
      { BufferLocation := some r
        SizeInBytes :=
          (((env.fbxVertices.size % 2 ^ 32) * env.sizeofVertexPosColor) % 2 ^ 64) % 2 ^ 32
        StrideInBytes := env.sizeofVertexPosColor % 2 ^ 32 }) := by
  refine ⟨?_, rfl, r, rfl, hh, hs⟩
  show _ % 2 ^ 64 % 2 ^ 32 = _
  rw [Nat.mod_mod_of_dvd _ (by decide : 2 ^ 32 ∣ 2 ^ 64), Nat.mod_mul_mod]

theorem goodView_index (env : Env) (r : Resource) (hh : r.heap = .DEFAULT)
    (hs : r.byteSize = (env.fbxIndicies.size * 2) % 2 ^ 64) :
    goodView env (.Store_m_IndexBufferView
      { BufferLocation := some r
        Format := some .R16_UINT
        SizeInBytes := (((env.fbxIndicies.size % 2 ^ 32) * 2) % 2 ^ 64) % 2 ^ 32 }) := by
  refine ⟨?_, rfl, r, rfl, hh, ?_⟩
  · show _ % 2 ^ 64 % 2 ^ 32 = _
    rw [Nat.mod_mod_of_dvd _ (by decide : 2 ^ 32 ∣ 2 ^ 64), Nat.mod_mul_mod, Nat.mul_comm]
  · rw [hs, Nat.mul_comm]

theorem LoadContent_vertexBuffer_keeps (env : Env) (cl : List Command) :
    Keeps (Loaded env) (goodView env) (LoadContent_vertexBuffer env cl) := by
  refine ⟨fun w hI => ?_⟩
  rw [LoadContent_vertexBuffer_eq, bind_apply]
  obtain ⟨evs, ht, hI2, hp⟩ := (UpdateBufferResource_keeps env env cl
    (fun r s => { s with m_VertexBuffer := some r }) w.st.vertices.size
    env.sizeofVertexPosColor w.st.vertices.addressOfFirst .NONE (fun _ _ h => h)).run
    (vertexEntry w) ⟨hI.1, hI.2⟩
  have hst := UpdateBufferResource_ok_state env cl
    (fun r s => { s with m_VertexBuffer := some r }) w.st.vertices.size
    env.sizeofVertexPosColor w.st.vertices.addressOfFirst .NONE (vertexEntry w)
  rcases hrun : UpdateBufferResource env cl (fun r s => { s with m_VertexBuffer := some r })
    w.st.vertices.size env.sizeofVertexPosColor w.st.vertices.addressOfFirst .NONE
    (vertexEntry w) with ⟨r, w2⟩
  rw [hrun] at ht hI2
  simp only [threw, hrun] at hst
  have hrel := goodView_releaseEvents env w.st.m_VertexBuffer
  cases r with
  | error e =>
    refine ⟨releaseEvents w.st.m_VertexBuffer ++ evs, ?_, hI2, ?_⟩
    · show w2.trace = _
      rw [ht, vertexEntry, List.append_assoc]
    · intro x hx
      rcases List.mem_append.mp hx with h | h
      · exact hrel x h
      · exact hp x h
  | ok a =>
    have hw2 := hst rfl
    refine ⟨releaseEvents w.st.m_VertexBuffer ++ evs ++
      [.Store_m_VertexBufferView
        { BufferLocation := some (uploadDestination w.st.vertices.size
            env.sizeofVertexPosColor .NONE (vertexEntry w))
          SizeInBytes :=
            (((env.fbxVertices.size % 2 ^ 32) * env.sizeofVertexPosColor) % 2 ^ 64) % 2 ^ 32
          StrideInBytes := env.sizeofVertexPosColor % 2 ^ 32 }], ?_, ?_, ?_⟩
    · simp only at ht hw2
      simp [storeVertexView, set_m_VertexBufferView, ht, hw2, vertexEntry, hI.1]
    · simp only at hI2
      simp [storeVertexView, set_m_VertexBufferView]
      exact ⟨hI2.1, hI2.2⟩
    · intro x hx
      rcases List.mem_append.mp hx with h | h
      · rcases List.mem_append.mp h with h | h
        · exact hrel x h
        · exact hp x h
      · simp only [List.mem_singleton] at h
        subst h
        refine goodView_vertex env _ rfl ?_
        show uploadSize _ _ = _
        rw [hI.1]; rfl

theorem LoadContent_indexBuffer_keeps (env : Env) (cl : List Command) :
    Keeps (Loaded env) (goodView env) (LoadContent_indexBuffer env cl) := by
  refine ⟨fun w hI => ?_⟩
  rw [LoadContent_indexBuffer_eq, bind_apply]
  obtain ⟨evs, ht, hI2, hp⟩ := (UpdateBufferResource_keeps env env cl
    (fun r s => { s with m_IndexBuffer := some r }) w.st.indicies.size
    2 w.st.indicies.addressOfFirst .NONE (fun _ _ h => h)).run
    (indexEntry w) ⟨hI.1, hI.2⟩
  have hst := UpdateBufferResource_ok_state env cl
    (fun r s => { s with m_IndexBuffer := some r }) w.st.indicies.size
    2 w.st.indicies.addressOfFirst .NONE (indexEntry w)
  rcases hrun : UpdateBufferResource env cl (fun r s => { s with m_IndexBuffer := some r })
    w.st.indicies.size 2 w.st.indicies.addressOfFirst .NONE (indexEntry w) with ⟨r, w2⟩
  rw [hrun] at ht hI2
  simp only [threw, hrun] at hst
  have hrel := goodView_releaseEvents env w.st.m_IndexBuffer
  cases r with
  | error e =>
    refine ⟨releaseEvents w.st.m_IndexBuffer ++ evs, ?_, hI2, ?_⟩
    · show w2.trace = _
      rw [ht, indexEntry, List.append_assoc]
    · intro x hx
      rcases List.mem_append.mp hx with h | h
      · exact hrel x h
      · exact hp x h
  | ok a =>
    have hw2 := hst rfl
    refine ⟨releaseEvents w.st.m_IndexBuffer ++ evs ++
      [.Store_m_IndexBufferView
        { BufferLocation := some (uploadDestination w.st.indicies.size 2 .NONE (indexEntry w))
          Format := some .R16_UINT
          SizeInBytes := (((env.fbxIndicies.size % 2 ^ 32) * 2) % 2 ^ 64) % 2 ^ 32 }],
      ?_, ?_, ?_⟩
    · simp only at ht hw2
      simp [storeIndexView, set_m_IndexBufferView, ht, hw2, indexEntry, hI.2]
    · simp only at hI2
      simp [storeIndexView, set_m_IndexBufferView]
      exact ⟨hI2.1, hI2.2⟩
    · intro x hx
      rcases List.mem_append.mp hx with h | h
      · rcases List.mem_append.mp h with h | h
        · exact hrel x h
        · exact hp x h
      · simp only [List.mem_singleton] at h
        subst h
        refine goodView_index env _ rfl ?_
        show uploadSize _ _ = _
        rw [hI.2]; rfl

theorem LoadContent_dsvHeap_keeps (env : Env) :
    Keeps (Loaded env) (goodView env) (LoadContent_dsvHeap env) := by
  unfold LoadContent_dsvHeap
  exact Keeps.keeps_bind (Keeps.keeps_throwIfFailed _ _ (fun _ => trivial))
    (fun _ => Keeps.keeps_update _ (fun _ h => h))

theorem LoadContent_pso_keeps (env : Env) (path : String) :
    Keeps (Loaded env) (goodView env) (LoadContent_pso env path) := by
  unfold LoadContent_pso
  repeat' first
    | exact Keeps.keeps_pure _
    | exact Keeps.keeps_update _ (fun _ h => h)
    | exact Keeps.keeps_throwIfFailed _ _ (fun _ => trivial)
    | exact Keeps.keeps_native _ _ (fun _ => trivial)
    | apply Keeps.keeps_bind
    | intro _

theorem LoadContent_sync_keeps (env : Env) (cl : List Command) :
    Keeps (Loaded env) (goodView env) (LoadContent_sync env cl) := by
  unfold LoadContent_sync ExecuteCommandList WaitForFenceValue
  repeat' first
    | exact Keeps.keeps_pure _
    | exact Keeps.keeps_getState
    | exact Keeps.keeps_update _ (fun _ h => h)
    | exact Keeps.keeps_emit _ trivial
    | apply Keeps.keeps_bind
    | intro _

theorem LoadContent_afterLoadFBX_keeps (env : Env) (shaderBlobPath : String)
    (cl : List Command) :
    Keeps (Loaded env) (goodView env) (LoadContent_afterLoadFBX env shaderBlobPath cl) := by
  unfold LoadContent_afterLoadFBX set_m_ContentLoaded
  repeat' first
    | exact Keeps.keeps_pure _
    | exact Keeps.keeps_getState
    | exact Keeps.keeps_update _ (fun _ h => h)
    | exact Keeps.keeps_emit _ trivial
    | exact LoadContent_vertexBuffer_keeps _ _
    | exact LoadContent_indexBuffer_keeps _ _
    | exact LoadContent_dsvHeap_keeps _
    | exact LoadContent_pso_keeps _ _
    | exact LoadContent_sync_keeps _ _
    | exact ResizeDepthBuffer_keeps _ _ _
    | exact releaseComPtr_keeps _ _
    | apply Keeps.keeps_bind
    | intro _

theorem LoadContent_eq (env : Env) (shaderBlobPath fbxFilePath : String) (w : World) :
    LoadContent env shaderBlobPath fbxFilePath w =
      LoadContent_afterLoadFBX env shaderBlobPath [] (afterLoadFBX env fbxFilePath w) := by
  simp only [LoadContent, LoadContent_afterLoadFBX, GetCommandList, bind_apply, emit_apply,
    pure_apply, update_apply, List.append_assoc, List.singleton_append, afterLoadFBX]

/-- Every buffer view `LoadContent` stores is a good view of the mesh the loader produced,
and the loaded mesh is still in the file-scope vectors afterwards. -/
theorem LoadContent_goodViews (env : Env) (shaderBlobPath fbxFilePath : String) (w : World) :
    Loaded env (LoadContent env shaderBlobPath fbxFilePath w).2.st ∧
    ∀ e ∈ eventsOf (LoadContent env shaderBlobPath fbxFilePath) w, goodView env e := by
  obtain ⟨evs, ht, hI, hp⟩ := (LoadContent_afterLoadFBX_keeps env shaderBlobPath []).run
    (afterLoadFBX env fbxFilePath w) ⟨rfl, rfl⟩
  have hev : eventsOf (LoadContent env shaderBlobPath fbxFilePath) w =
      [.GetCommandList .COPY, .LoadFBX fbxFilePath] ++ evs := by
    rw [eventsOf, LoadContent_eq, ht]
    simp [afterLoadFBX]
  refine ⟨by rw [LoadContent_eq]; exact hI, ?_⟩
  rw [hev]
  intro e he
  simp only [List.cons_append, List.nil_append, List.mem_cons] at he
  rcases he with rfl | rfl | he
  · trivial
  · trivial
  · exact hp e he

/-! ## Mesh::LoadContent when no native call fails -/

theorem LoadContent_pipeline_ok (env : Env) (shaderBlobPath : String) (w : World)
    (hall : NoCallFails env) :
    (LoadContent_dsvHeap env >>= fun _ => LoadContent_pso env shaderBlobPath) w =
      (.ok (), afterPipeline env shaderBlobPath w) := by
  have h : ∀ tr c, env.succeeded tr c = true := hall
  simp [LoadContent_dsvHeap, LoadContent_pso, ThrowIfFailed, h, afterPipeline,
    loadEventsPipeline]

theorem LoadContent_sync_ok (env : Env) (cl : List Command) (w : World) :
    (LoadContent_sync env cl >>= fun _ => set_m_ContentLoaded true) w =
      (.ok (), afterSync env cl w) := by
  simp [LoadContent_sync, ExecuteCommandList, WaitForFenceValue, set_m_ContentLoaded,
    State.queue, State.setQueue, afterSync, loadFence]

theorem bind_ok {α β : Type} (m : M α) (f : α → M β) (w w1 : World) (a : α)
    (h : m w = (.ok a, w1)) : (m >>= f) w = f a w1 := by
  rw [bind_apply, h]

theorem bind_ok_inv {α β : Type} (m : M α) (f : α → M β) (w w2 : World) (b : β)
    (h : (m >>= f) w = (.ok b, w2)) : ∃ a w1, m w = (.ok a, w1) ∧ f a w1 = (.ok b, w2) := by
  rw [bind_apply] at h
  cases hm : m w with
  | mk r w1 =>
    rw [hm] at h
    cases r with
    | error e => simp at h
    | ok a => exact ⟨a, w1, rfl, h⟩

theorem releaseEvents_filter (o : Option Resource) :
    (releaseEvents o).filter Event.isRelease = releaseEvents o := by
  cases o <;> simp [releaseEvents, Event.isRelease]

theorem releaseEvents_any (o : Option Resource) (p : Event → Bool)
    (hp : ∀ r, p (.Release r) = false) : (releaseEvents o).any p = false := by
  cases o <;> simp [releaseEvents, hp]

theorem releaseComPtr_apply (o : Option Resource) (w : World) :
    releaseComPtr o w = (.ok (), { st := w.st, trace := w.trace ++ releaseEvents o }) := by
  cases o <;> simp [releaseComPtr, releaseEvents]

/-- When no native call fails, the block `// Vertex buffer` returns, having stored the view
that the state then holds. -/
theorem LoadContent_vertexBuffer_stores (env : Env) (cl : List Command) (w : World)
    (hall : NoCallFails env) :
    (∃ r, (LoadContent_vertexBuffer env cl w).1 = .ok r) ∧
    ∃ evs, (LoadContent_vertexBuffer env cl w).2.trace = w.trace ++ evs ∧
      Event.Store_m_VertexBufferView
        (LoadContent_vertexBuffer env cl w).2.st.m_VertexBufferView ∈ evs := by
  have h : ∀ tr c, env.succeeded tr c = true := hall
  rcases hv : w.st.vertices.addressOfFirst with _ | pv <;>
  simp [LoadContent_vertexBuffer, UpdateBufferResource, CreateCommittedResource,
    ThrowIfFailed, h, set_m_VertexBufferView, hv]

/-- When no native call fails, the block `// Index buffer` returns, having stored the view
that the state then holds; the view of the vertex buffer is as before. -/
theorem LoadContent_indexBuffer_stores (env : Env) (cl : List Command) (w : World)
    (hall : NoCallFails env) :
    (∃ r, (LoadContent_indexBuffer env cl w).1 = .ok r) ∧
    (LoadContent_indexBuffer env cl w).2.st.m_VertexBufferView = w.st.m_VertexBufferView ∧
    ∃ evs, (LoadContent_indexBuffer env cl w).2.trace = w.trace ++ evs ∧
      Event.Store_m_IndexBufferView
        (LoadContent_indexBuffer env cl w).2.st.m_IndexBufferView ∈ evs := by
  have h : ∀ tr c, env.succeeded tr c = true := hall
  rcases hv : w.st.indicies.addressOfFirst with _ | pv <;>
  simp [LoadContent_indexBuffer, UpdateBufferResource, CreateCommittedResource,
    ThrowIfFailed, h, set_m_IndexBufferView, hv]

/-- When no native call fails and the two upload blocks have returned, `LoadContent` returns
`true`; what follows the blocks stores no view and only appends to the trace. -/
theorem LoadContent_run_of (env : Env) (shaderBlobPath fbxFilePath : String) (w w2 w3 : World)
    (cl1 cl2 : List Command) (iv ii : Option Resource) (hall : NoCallFails env)
    (hv : LoadContent_vertexBuffer env [] (afterLoadFBX env fbxFilePath w) =
      (.ok (cl1, iv), w2))
    (hi : LoadContent_indexBuffer env cl1 w2 = (.ok (cl2, ii), w3)) :
    (LoadContent env shaderBlobPath fbxFilePath w).1 = .ok true ∧
    (LoadContent env shaderBlobPath fbxFilePath w).2.st.m_VertexBufferView =
      w3.st.m_VertexBufferView ∧
    (LoadContent env shaderBlobPath fbxFilePath w).2.st.m_IndexBufferView =
      w3.st.m_IndexBufferView ∧
    ∃ evs, (LoadContent env shaderBlobPath fbxFilePath w).2.trace = w3.trace ++ evs := by
  obtain ⟨u1, w5, hd, hp⟩ := bind_ok_inv _ _ _ _ _
    (LoadContent_pipeline_ok env shaderBlobPath w3 hall)
  obtain ⟨u2, w6, hy, hs⟩ := bind_ok_inv _ _ _ _ _
    (LoadContent_sync_ok env cl2 (afterPipeline env shaderBlobPath w3))
  have hres : ResizeDepthBuffer env
      (afterSync env cl2 (afterPipeline env shaderBlobPath w3)).st.clientWidth
      (afterSync env cl2 (afterPipeline env shaderBlobPath w3)).st.clientHeight
      (afterSync env cl2 (afterPipeline env shaderBlobPath w3)) = _ :=
    ResizeDepthBuffer_ok env _ _ (afterSync env cl2 (afterPipeline env shaderBlobPath w3)) rfl
      (hall _ _)
  rw [LoadContent_eq]
  unfold LoadContent_afterLoadFBX
  rw [bind_ok _ _ _ _ _ hv]
  dsimp only
  rw [bind_ok _ _ _ _ _ hi]
  dsimp only
  rw [bind_ok _ _ _ _ _ hd, bind_ok _ _ _ _ _ hp, bind_ok _ _ _ _ _ hy, bind_ok _ _ _ _ _ hs,
    bind_ok _ _ _ _ _ (getState_apply _), bind_ok _ _ _ _ _ (getState_apply _),
    bind_ok _ _ _ _ _ hres, bind_ok _ _ _ _ _ (releaseComPtr_apply _ _),
    bind_ok _ _ _ _ _ (releaseComPtr_apply _ _)]
  refine ⟨rfl, rfl, rfl, ?_⟩
  simp only [pure_apply, afterSync, afterPipeline, List.append_assoc]
  exact ⟨_, rfl⟩

theorem LoadContent_views_ok (env : Env) (shaderBlobPath fbxFilePath : String) (w : World)
    (hall : NoCallFails env) :
    Event.Store_m_VertexBufferView
        (LoadContent env shaderBlobPath fbxFilePath w).2.st.m_VertexBufferView ∈
      eventsOf (LoadContent env shaderBlobPath fbxFilePath) w ∧
    Event.Store_m_IndexBufferView
        (LoadContent env shaderBlobPath fbxFilePath w).2.st.m_IndexBufferView ∈
      eventsOf (LoadContent env shaderBlobPath fbxFilePath) w := by
  obtain ⟨⟨r1, hr1⟩, ev1, ht1, hm1⟩ :=
    LoadContent_vertexBuffer_stores env [] (afterLoadFBX env fbxFilePath w) hall
  obtain ⟨⟨r2, hr2⟩, hk2, ev2, ht2, hm2⟩ :=
    LoadContent_indexBuffer_stores env r1.1
      (LoadContent_vertexBuffer env [] (afterLoadFBX env fbxFilePath w)).2 hall
  obtain ⟨_, hvv, hiv, ev3, ht3⟩ :=
    LoadContent_run_of env shaderBlobPath fbxFilePath w _ _ r1.1 r2.1 r1.2 r2.2 hall
      (Prod.ext hr1 rfl) (Prod.ext hr2 rfl)
  have htr : (LoadContent env shaderBlobPath fbxFilePath w).2.trace =
      w.trace ++ ([.GetCommandList .COPY, .LoadFBX fbxFilePath] ++ ev1 ++ ev2 ++ ev3) := by
    rw [ht3, ht2, ht1]
    simp [afterLoadFBX]
  rw [eventsOf]
  simp only [htr, List.drop_left, hvv, hiv, hk2]
  constructor
  · simp [hm1]
  · simp [hm2]

theorem Render_draws (env : Env) (w : World) :
    (submitted (eventsOf (Render env) w)).map drawIndexCounts =
      [[w.st.indicies.size % 2 ^ 32]] := by
  simp [Render_events, submitted, frameCommands, drawIndexCounts]

/-- C10: the buffer views `LoadContent` stores for `n` vertices of `s` bytes and `m` indices
have `SizeInBytes = (n * s) mod 2^32` and `SizeInBytes = (2 * m) mod 2^32`.  Hence, when
`n * s < 2^32` and `2 * m < 2^32` (and `s` fits a `UINT`), each size equals the byte size of
the buffer the view is located at, as uploaded by `UpdateBufferResource`, the stride of the
vertex view is `s`, and the index count `(UINT)m` of the draw of a later `Render`, times 2, is
the size of the index view.  When no native call fails both views are stored. -/
theorem C10_buffer_view_sizes (env : Env) (shaderBlobPath fbxFilePath : String) (w : World) :
    (∀ v, Event.Store_m_VertexBufferView v ∈
        eventsOf (LoadContent env shaderBlobPath fbxFilePath) w →
      v.SizeInBytes = (env.fbxVertices.size * env.sizeofVertexPosColor) % 2 ^ 32 ∧
      v.StrideInBytes = env.sizeofVertexPosColor % 2 ^ 32) ∧
    (∀ v, Event.Store_m_IndexBufferView v ∈
        eventsOf (LoadContent env shaderBlobPath fbxFilePath) w →
      v.SizeInBytes = (2 * env.fbxIndicies.size) % 2 ^ 32) ∧
    (env.fbxVertices.size * env.sizeofVertexPosColor < 2 ^ 32 →
      2 * env.fbxIndicies.size < 2 ^ 32 → env.sizeofVertexPosColor < 2 ^ 32 →
      (∀ v, Event.Store_m_VertexBufferView v ∈
          eventsOf (LoadContent env shaderBlobPath fbxFilePath) w →
        ∃ r, v.BufferLocation = some r ∧
          r.byteSize = env.fbxVertices.size * env.sizeofVertexPosColor ∧
          v.SizeInBytes = env.fbxVertices.size * env.sizeofVertexPosColor ∧
          v.StrideInBytes = env.sizeofVertexPosColor) ∧
      (∀ v, Event.Store_m_IndexBufferView v ∈
          eventsOf (LoadContent env shaderBlobPath fbxFilePath) w →
        ∃ r, v.BufferLocation = some r ∧
          r.byteSize = 2 * env.fbxIndicies.size ∧
          v.SizeInBytes = 2 * env.fbxIndicies.size ∧
          ∀ env2,
            (submitted (eventsOf (Render env2)
              (LoadContent env shaderBlobPath fbxFilePath w).2)).map drawIndexCounts =
              [[env.fbxIndicies.size % 2 ^ 32]] ∧
            (env.fbxIndicies.size % 2 ^ 32) * 2 = v.SizeInBytes)) ∧
    (NoCallFails env →
      Event.Store_m_VertexBufferView
          (LoadContent env shaderBlobPath fbxFilePath w).2.st.m_VertexBufferView ∈
        eventsOf (LoadContent env shaderBlobPath fbxFilePath) w ∧
      Event.Store_m_IndexBufferView
          (LoadContent env shaderBlobPath fbxFilePath w).2.st.m_IndexBufferView ∈
        eventsOf (LoadContent env shaderBlobPath fbxFilePath) w) := by
  obtain ⟨hload, hgood⟩ := LoadContent_goodViews env shaderBlobPath fbxFilePath w
  refine ⟨?_, ?_, ?_, LoadContent_views_ok env shaderBlobPath fbxFilePath w⟩
  · intro v hv
    have := hgood _ hv
    exact ⟨this.1, this.2.1⟩
  · intro v hv
    exact (hgood _ hv).1
  · intro hn hm hs
    constructor
    · intro v hv
      obtain ⟨h1, h2, r, hr, _, hsz⟩ := hgood _ hv
      refine ⟨r, hr, ?_, ?_, ?_⟩
      · rw [hsz]; exact Nat.mod_eq_of_lt (by omega)
      · rw [h1]; exact Nat.mod_eq_of_lt hn
      · rw [h2]; exact Nat.mod_eq_of_lt hs
    · intro v hv
      obtain ⟨h1, _, r, hr, _, hsz⟩ := hgood _ hv
      refine ⟨r, hr, ?_, ?_, ?_⟩
      · rw [hsz]; exact Nat.mod_eq_of_lt (by omega)
      · rw [h1]; exact Nat.mod_eq_of_lt hm
      · intro env2
        refine ⟨?_, ?_⟩
        · rw [Render_draws, hload.2]
        · rw [h1, Nat.mod_eq_of_lt hm, Nat.mod_eq_of_lt (by omega)]
          omega


/-- C10 at the load of 24 vertices of 44 bytes and 36 indices: the vertex view is 1056 bytes
with stride 44, the index view 72 bytes, and the draw of a later frame has index count 36. -/
theorem C10_buffer_view_sizes_witness :
    (∃ r, (LoadContent sampleEnv "" "" sampleWorld).2.st.m_VertexBufferView.BufferLocation =
        some r ∧
      r.byteSize = 1056 ∧
      (LoadContent sampleEnv "" "" sampleWorld).2.st.m_VertexBufferView.SizeInBytes = 1056 ∧
      (LoadContent sampleEnv "" "" sampleWorld).2.st.m_VertexBufferView.StrideInBytes = 44) ∧
    (∃ r, (LoadContent sampleEnv "" "" sampleWorld).2.st.m_IndexBufferView.BufferLocation =
        some r ∧
      r.byteSize = 72 ∧
      (LoadContent sampleEnv "" "" sampleWorld).2.st.m_IndexBufferView.SizeInBytes = 72 ∧
      ∀ env2,
        (submitted (eventsOf (Render env2)
          (LoadContent sampleEnv "" "" sampleWorld).2)).map drawIndexCounts = [[36]] ∧
        36 * 2 = (LoadContent sampleEnv "" "" sampleWorld).2.st.m_IndexBufferView.SizeInBytes) :=
  have h := C10_buffer_view_sizes sampleEnv "" "" sampleWorld
  have hs := h.2.2.2 (fun _ _ => rfl)
  have hc := h.2.2.1 (by decide) (by decide) (by decide)
  ⟨hc.1 _ hs.1, hc.2 _ hs.2⟩

end Mesh
